import Mathlib

/-!
Verification development for the OpenTalk conference recorder / SIP gateway
repository. The definitions below are shallow embeddings of the Rust sources:

* `compositor/src/mixer/talk.rs` and `compositor/src/mixer/mod.rs`
  (stream registry, visibility list, speaker promotion),
* `compositor/src/layout/grid.rs` and `compositor/src/layout/speaker.rs`
  (layout engine),
* `recorder-main/src/signaling.rs` and `recorder-main/src/recorder.rs`
  (consent gating of subscriptions),
* `obelisk-main/src/media/sip_bin/{codec.rs, sdp.rs, mod.rs,
  custom_rtpdtmfdepay.rs}` (codec choice, SDP answer direction, reINVITE
  handling, DTMF depayloading),
* `obelisk-main/src/signaling.rs` (DTMF dial-in state machine).

GStreamer plumbing (pads, bins, overlays) carries no decision logic relevant
to the claims and is not modelled; the observable state that the claims talk
about (registries, visibility lists, emitted commands) is modelled exactly.
-/

namespace Compositor

/-- Media type of a stream, `MediaSessionType` in `talk.rs`. -/
inductive MediaSessionType where
  | Camera
  | ScreenCapture
deriving DecidableEq, Repr

/-- Priority order used by `media_types()` in `talk.rs`:
`[ScreenCapture, Camera]`. -/
def mediaTypes : List MediaSessionType :=
  [MediaSessionType.ScreenCapture, MediaSessionType.Camera]

/-- `StreamId` from `talk.rs`: a participant id paired with a media type.
The generic `ID` type is instantiated with `Nat` (the source uses an opaque
`Uuid`; only equality is ever used). -/
structure StreamId where
  id : Nat
  mediaType : MediaSessionType
deriving DecidableEq, Repr

/-- `StreamId::camera` constructor. -/
def StreamId.camera (id : Nat) : StreamId :=
  ⟨id, MediaSessionType.Camera⟩

/-- `StreamId::screen` constructor. -/
def StreamId.screen (id : Nat) : StreamId :=
  ⟨id, MediaSessionType.ScreenCapture⟩

/-- `StreamStatus` (`stream.rs`): whether the stream currently carries
audio and video. -/
structure StreamStatus where
  hasAudio : Bool
  hasVideo : Bool
deriving DecidableEq, Repr

/-- Observable state of a `Talk` together with its inner `Mixer`
(`talk.rs` / `mixer/mod.rs`): the stream registry (a `HashMap` in the
source, modelled as an association list), the ordered visibility list, the
display-name map of the `Talk`, the `max_visibles` bound and the currently
chosen speaker. Pipeline objects (bins, pads, overlays) are not modelled. -/
structure TalkState where
  streams : List (StreamId × StreamStatus)
  visibles : List StreamId
  names : List (StreamId × String)
  maxVisibles : Nat
  currentSpeaker : Option Nat
deriving DecidableEq, Repr

/-- Association-list lookup used to model `HashMap::get`. -/
def lookupStream (st : TalkState) (id : StreamId) : Option StreamStatus :=
  (st.streams.find? (fun p => p.1 = id)).map Prod.snd

/-- `Mixer::streams.contains_key` / `Talk::contains_stream`. -/
def containsStream (st : TalkState) (id : StreamId) : Bool :=
  (st.streams.find? (fun p => p.1 = id)).isSome

/-- `Vec::insert`: insert at a position, shifting the tail. The source
panics when the index exceeds the length; the model appends in that case
(no modelled call site reaches it). -/
def insertAt {α : Type} : Nat → α → List α → List α
  | 0, a, l => a :: l
  | _ + 1, a, [] => [a]
  | n + 1, a, x :: xs => x :: insertAt n a xs

/-- Result of a fallible operation: the final state (mutations that
happened before an error are kept, matching the Rust `?` behaviour on
`&mut self` methods) and whether the call returned `Ok`. -/
def OpResult := TalkState × Bool

/-- `Mixer::is_visible`. -/
def isVisible (st : TalkState) (id : StreamId) : Bool :=
  st.visibles.contains id

/-- `Mixer::add_stream` (`mixer/mod.rs`): fails when the id is already in
the registry, otherwise inserts the stream with the given initial status.
The visibility list is untouched. -/
def mixerAddStream (st : TalkState) (id : StreamId) (status : StreamStatus) :
    OpResult :=
  if containsStream st id then
    (st, false)
  else
    ({ st with streams := (id, status) :: st.streams }, true)

/-- Update the status stored for `id` in the registry. -/
def updateStatus (streams : List (StreamId × StreamStatus)) (id : StreamId)
    (status : StreamStatus) : List (StreamId × StreamStatus) :=
  streams.map (fun p => if p.1 = id then (p.1, status) else p)

/-- `Mixer::set_status` (`mixer/mod.rs`): fails when the stream is
unknown; otherwise overwrites its status (audio volume is derived from it
in the source). -/
def mixerSetStatus (st : TalkState) (id : StreamId) (status : StreamStatus) :
    OpResult :=
  if containsStream st id then
    ({ st with streams := updateStatus st.streams id status }, true)
  else
    (st, false)

/-- `Mixer::show_stream` (`mixer/mod.rs`): no-op when already visible,
otherwise insert at the front (`position_first`) or push to the back. -/
def mixerShowStream (st : TalkState) (id : StreamId) (positionFirst : Bool) :
    OpResult :=
  if isVisible st id then
    (st, true)
  else if positionFirst then
    ({ st with visibles := id :: st.visibles }, true)
  else
    ({ st with visibles := st.visibles ++ [id] }, true)

/-- `Mixer::hide_stream` (`mixer/mod.rs`): no-op when not visible,
otherwise remove the id from the visibility list (`Vec::retain`). -/
def mixerHideStream (st : TalkState) (id : StreamId) : OpResult :=
  if isVisible st id then
    ({ st with visibles := st.visibles.filter (fun v => v ≠ id) }, true)
  else
    (st, true)

/-- `Mixer::set_stream_to_position` (`mixer/mod.rs`): early return when
the stream is already the first visible; otherwise remove it
(`Vec::retain`) and insert it at `position`. -/
def setStreamToPosition (st : TalkState) (id : StreamId) (position : Nat) :
    OpResult :=
  if st.visibles.head? = some id then
    (st, true)
  else
    ({ st with
        visibles := insertAt position id
          (st.visibles.filter (fun v => v ≠ id)) }, true)

/-- `Mixer::set_stream_to_first_position`. -/
def setStreamToFirstPosition (st : TalkState) (id : StreamId) : OpResult :=
  setStreamToPosition st id 0

/-- `Mixer::set_stream_to_second_position`. -/
def setStreamToSecondPosition (st : TalkState) (id : StreamId) : OpResult :=
  setStreamToPosition st id 1

/-- `Mixer::remove_stream` (`mixer/mod.rs`): fails when the id is
unknown; otherwise removes it from the registry and, when visible, from
the visibility list. -/
def mixerRemoveStream (st : TalkState) (id : StreamId) : OpResult :=
  if containsStream st id then
    ({ st with
        streams := st.streams.filter (fun p => p.1 ≠ id)
        visibles := st.visibles.filter (fun v => v ≠ id) }, true)
  else
    (st, false)

/-- `Talk::get_first_screen_capture` (`talk.rs`): the first visible
stream whose media type is `ScreenCapture`. -/
def getFirstScreenCapture (st : TalkState) : Option StreamId :=
  st.visibles.find? (fun v => v.mediaType = MediaSessionType.ScreenCapture)

/-- `Talk::add_stream` (`talk.rs`): forwards to the mixer (which rejects
duplicate ids before touching anything), then records the display name and
re-applies the initial status. The overlay creation of the source has no
observable state in the model. -/
def talkAddStream (st : TalkState) (id : StreamId) (displayName : String)
    (initial : StreamStatus) : OpResult :=
  let r := mixerAddStream st id initial
  if r.2 then
    mixerSetStatus { r.1 with names := (id, displayName) :: r.1.names }
      id initial
  else
    (r.1, false)

/-- The tail of `Talk::remove_stream` (`talk.rs`): push the first visible
screen share (if any) to the first position. -/
def promoteFirstScreen (st : TalkState) : OpResult :=
  match getFirstScreenCapture st with
  | some sid => setStreamToFirstPosition st sid
  | none => (st, true)

/-- `Talk::remove_stream` (`talk.rs`): drops the display name, forwards
to the mixer, then promotes the first visible screen share to the first
position. -/
def talkRemoveStream (st : TalkState) (id : StreamId) : OpResult :=
  let r := mixerRemoveStream
    { st with names := st.names.filter (fun p => p.1 ≠ id) } id
  if r.2 then
    promoteFirstScreen r.1
  else
    (r.1, false)

/-- The cap check at the top of `Talk::show_stream` (`talk.rs`): when the
visibility list has reached `max_visibles`, a Camera stream is rejected
(`false` marks the `return Ok(())` path) and a ScreenCapture stream evicts
the last visible entry. -/
def talkShowStreamCap (st : TalkState) (id : StreamId) : OpResult :=
  if st.visibles.length ≥ st.maxVisibles then
    if id.mediaType = MediaSessionType.Camera then
      (st, false)
    else
      match st.visibles.getLast? with
      | some last => mixerHideStream st last
      | none => (st, true)
  else
    (st, true)

/-- `Talk::show_stream` (`talk.rs`): apply the cap stage, then show the
stream — first in the list when it is a ScreenCapture and no screen share
is visible, last otherwise. -/
def talkShowStream (st : TalkState) (id : StreamId) : OpResult :=
  let r := talkShowStreamCap st id
  if id.mediaType = MediaSessionType.Camera ∧ r.2 = false then
    -- the `return Ok(())` for Camera streams at the cap
    (r.1, true)
  else
    mixerShowStream r.1 id
      (id.mediaType = MediaSessionType.ScreenCapture ∧
        (getFirstScreenCapture r.1).isNone)

/-- `Talk::hide_stream` (`talk.rs`): forwards to the mixer. -/
def talkHideStream (st : TalkState) (id : StreamId) : OpResult :=
  mixerHideStream st id

/-- The `match (old, new)` on the video bits at the end of
`Talk::set_status` (`talk.rs`): show on turn-on, hide on turn-off. -/
def videoTransition (st : TalkState) (id : StreamId)
    (oldVideo newVideo : Bool) : OpResult :=
  match oldVideo, newVideo with
  | false, true => talkShowStream st id
  | true, false => talkHideStream st id
  | _, _ => (st, true)

/-- `Talk::set_status` (`talk.rs`): returns `Ok` without change when the
stream is unknown; otherwise updates the status and shows (resp. hides)
the stream when the video bit turned on (resp. off). -/
def talkSetStatus (st : TalkState) (id : StreamId) (newStatus : StreamStatus) :
    OpResult :=
  match lookupStream st id with
  | none => (st, true)
  | some oldStatus =>
    let r := mixerSetStatus st id newStatus
    if r.2 then
      videoTransition r.1 id oldStatus.hasVideo newStatus.hasVideo
    else
      (r.1, false)

/-- The screen stage of `Talk::set_speaker` (`talk.rs`): move the
speaker's ScreenCapture stream to the first position when it is
registered with video — its visibility is not consulted. -/
def speakerScreenStage (st : TalkState) (speaker : Nat) : OpResult :=
  match lookupStream st (StreamId.screen speaker) with
  | some status =>
    if status.hasVideo then
      setStreamToFirstPosition st (StreamId.screen speaker)
    else (st, true)
  | none => (st, true)

/-- The camera stage of `Talk::set_speaker` (`talk.rs`): move the
speaker's Camera stream — gated on its registered video status — to the
first position when no screen share is visible, otherwise to the second
position. -/
def speakerCamStage (st : TalkState) (speaker : Nat) : OpResult :=
  match lookupStream st (StreamId.camera speaker) with
  | some status =>
    if status.hasVideo then
      if (getFirstScreenCapture st).isNone then
        setStreamToFirstPosition st (StreamId.camera speaker)
      else
        setStreamToSecondPosition st (StreamId.camera speaker)
    else (st, true)
  | none => (st, true)

/-- `Talk::set_speaker` (`talk.rs`): records the speaker, then applies
the screen stage and — via `?` on its result — the camera stage. -/
def talkSetSpeaker (st : TalkState) (speaker : Nat) : OpResult :=
  let r := speakerScreenStage { st with currentSpeaker := some speaker }
    speaker
  if r.2 then
    speakerCamStage r.1 speaker
  else
    (r.1, false)

/-- `Talk::unset_speaker`. -/
def talkUnsetSpeaker (st : TalkState) : TalkState :=
  { st with currentSpeaker := none }

/-- One public operation on the `Talk` facade. -/
inductive TalkOp where
  | addStream (id : StreamId) (displayName : String) (initial : StreamStatus)
  | removeStream (id : StreamId)
  | showStream (id : StreamId)
  | hideStream (id : StreamId)
  | setStatus (id : StreamId) (status : StreamStatus)
  | setSpeaker (speaker : Nat)
deriving DecidableEq, Repr

/-- Apply one operation; the state after an `Err` return is kept
(mutations already performed stay, as in the source). -/
def applyOp (st : TalkState) (op : TalkOp) : TalkState :=
  match op with
  | TalkOp.addStream id name initial => (talkAddStream st id name initial).1
  | TalkOp.removeStream id => (talkRemoveStream st id).1
  | TalkOp.showStream id => (talkShowStream st id).1
  | TalkOp.hideStream id => (talkHideStream st id).1
  | TalkOp.setStatus id status => (talkSetStatus st id status).1
  | TalkOp.setSpeaker speaker => (talkSetSpeaker st speaker).1

/-- Apply a sequence of operations from left to right. -/
def applyOps (st : TalkState) (ops : List TalkOp) : TalkState :=
  ops.foldl applyOp st

/-- The initial state of `Talk::new`: empty registry, no visibles. -/
def initialTalk (maxVisibles : Nat) : TalkState :=
  { streams := [], visibles := [], names := [], maxVisibles := maxVisibles,
    currentSpeaker := none }

/-- Pixel sizes, `Size` in `layout/mod.rs`. -/
structure Size where
  width : Nat
  height : Nat
deriving DecidableEq, Repr

/-- Pixel positions, `Position` in `layout/mod.rs` (fields are `i64`). -/
structure Position where
  x : Int
  y : Int
deriving DecidableEq, Repr

/-- A stream's tile, `View` in `layout/mod.rs`. -/
structure View where
  pos : Position
  size : Size
deriving DecidableEq, Repr

/-- Model of `(f64::sqrt(v as f64) + 0.9) as usize` in `Grid::grid`.
Pixel geometry in the source is computed in `f64`; the model uses the
exact value `⌊√v + 9/10⌋`, which agrees with the correctly rounded double
computation on all realistic participant counts. No claim depends on the
numeric tile values. -/
def floorSqrtPlus09 (v : Nat) : Nat :=
  let s := Nat.sqrt v
  if 100 * v ≤ 100 * s * s + 20 * s then s else s + 1

namespace Grid

/-- `Grid::grid`: the `(columns, rows)` pair for a number of visibles. -/
def grid (visibles : Nat) : Nat × Nat :=
  if visibles > 1 then
    let columns := floorSqrtPlus09 visibles
    let rows := (visibles + columns - 1) / columns
    if rows > columns then (columns + 1, rows - 1) else (columns, rows)
  else
    (1, 1)

/-- `Grid::columns`. -/
def columns (visibles : Nat) : Nat := (grid visibles).1

/-- `Grid::rows`. -/
def rows (visibles : Nat) : Nat := (grid visibles).2

/-- `Grid::uni_size`: tile size (height computed through the canvas ratio;
`f64` division modelled by exact rational arithmetic truncated to `Nat`). -/
def uniSize (resolution : Size) (visibles : Nat) : Size :=
  let width := resolution.width / columns visibles
  let height := width * resolution.height / resolution.width
  ⟨width, height⟩

/-- `Grid::padding`: vertical padding that centers the grid. -/
def padding (resolution : Size) (visibles : Nat) : Nat :=
  (resolution.height - (uniSize resolution visibles).height * rows visibles) / 2

/-- `Grid::calculate_stream_view` (`layout/grid.rs`): note that it returns
`Some` for every `stream_position`, even positions at or beyond the number
of visibles — there is no `None` branch. -/
def calculateStreamView (resolution : Size) (visibles : Nat)
    (streamPosition : Nat) : Option View :=
  let row := streamPosition / columns visibles
  let column := streamPosition % columns visibles
  some
    { pos :=
        { x := ((uniSize resolution visibles).width * column : Nat)
          y := ((uniSize resolution visibles).height * row
                  + padding resolution visibles : Nat) }
      size := uniSize resolution visibles }

end Grid

namespace Speaker

/-- `VIEWER_SCALE` in `layout/speaker.rs`. -/
def viewerScale : Nat := 4

/-- `Speaker::viewers_width`. -/
def viewersWidth (resolution : Size) (visibles : Nat) : Nat :=
  match visibles with
  | 0 | 1 => 0
  | 2 => resolution.width / 2
  | _ => resolution.width / viewerScale

/-- `Speaker::viewers_height` (`f64` division modelled exactly and
truncated). -/
def viewersHeight (resolution : Size) (visibles : Nat) : Nat :=
  viewersWidth resolution visibles * resolution.height / resolution.width

/-- `Speaker::speaker_height`. -/
def speakerHeight (resolution : Size) (visibles : Nat) : Nat :=
  resolution.height - viewersHeight resolution visibles

/-- `Speaker::speaker_width`. -/
def speakerWidth (resolution : Size) (visibles : Nat) : Nat :=
  speakerHeight resolution visibles * resolution.width / resolution.height

/-- `Speaker::speaker_size`. -/
def speakerSize (resolution : Size) (visibles : Nat) : Size :=
  ⟨speakerWidth resolution visibles, speakerHeight resolution visibles⟩

/-- `Speaker::speaker_position`. -/
def speakerPosition (resolution : Size) (visibles : Nat) : Position :=
  match visibles with
  | 2 => ⟨0, (resolution.height : Int) / 4⟩
  | _ => ⟨0, 0⟩

/-- `Speaker::viewers_position`. -/
def viewersPosition (resolution : Size) (visibles : Nat)
    (streamPosition : Nat) : Position :=
  match visibles with
  | 0 | 1 => ⟨0, 0⟩
  | 2 => ⟨(resolution.width : Int) / 2, (resolution.height : Int) / 4⟩
  | _ =>
    if streamPosition < viewerScale then
      ⟨(speakerWidth resolution visibles : Int),
        ((viewersHeight resolution visibles) * streamPosition : Nat)⟩
    else
      let horizontalIndex := streamPosition - viewerScale + 1
      let horizontalOffset : Int :=
        (viewersWidth resolution visibles * horizontalIndex : Nat)
      ⟨(speakerWidth resolution visibles : Int) - horizontalOffset,
        (speakerHeight resolution visibles : Int)⟩

/-- `Speaker::viewers_size`. -/
def viewersSize (resolution : Size) (visibles : Nat) : Size :=
  match visibles with
  | 1 => ⟨resolution.width / 2, resolution.height / 2⟩
  | _ => ⟨viewersWidth resolution visibles, viewersHeight resolution visibles⟩

/-- `Speaker::calculate_stream_view` (`layout/speaker.rs`): `None` for
positions at or beyond the number of visibles, the speaker tile at
position 0, viewer tiles otherwise. -/
def calculateStreamView (resolution : Size) (visibles : Nat)
    (streamPosition : Nat) : Option View :=
  if streamPosition ≥ visibles then
    none
  else
    match streamPosition with
    | 0 => some ⟨speakerPosition resolution visibles,
                 speakerSize resolution visibles⟩
    | n + 1 => some ⟨viewersPosition resolution visibles n,
                     viewersSize resolution visibles⟩

end Speaker

/-- The two layouts of the layout engine. -/
inductive LayoutKind where
  | grid
  | speaker
deriving DecidableEq, Repr

/-- Dispatch `calculate_stream_view` over the two layouts. -/
def calculateStreamView (layout : LayoutKind) (resolution : Size)
    (visibles : Nat) (streamPosition : Nat) : Option View :=
  match layout with
  | LayoutKind.grid => Grid.calculateStreamView resolution visibles streamPosition
  | LayoutKind.speaker =>
      Speaker.calculateStreamView resolution visibles streamPosition

/-- The alpha that `Mixer::rerender_layout` (`mixer/mod.rs`) assigns to
the compositor pad of the stream at `streamPosition`: 1.0 when
`calculate_stream_view` returns a view, 0.0 otherwise. Modelled as 0 / 1. -/
def rerenderAlpha (layout : LayoutKind) (resolution : Size) (visibles : Nat)
    (streamPosition : Nat) : Nat :=
  if (calculateStreamView layout resolution visibles streamPosition).isSome
  then 1 else 0

end Compositor

namespace Recorder

open Compositor

/-- `MediaSessionState` (`recorder-main/src/signaling.rs`): what a
participant publishes on one media type. -/
structure MediaSessionState where
  video : Bool
  audio : Bool
deriving DecidableEq, Repr

/-- Conversion `From<MediaSessionState> for StreamStatus`. -/
def MediaSessionState.toStatus (s : MediaSessionState) : StreamStatus :=
  { hasAudio := s.audio, hasVideo := s.video }

/-- `ParticipantState` (`recorder-main/src/signaling.rs`): display name,
recording consent and the publishing map (one optional entry per media
type, mirroring `from_incoming`). -/
structure ParticipantState where
  displayName : String
  consents : Bool
  camera : Option MediaSessionState
  screen : Option MediaSessionState
deriving DecidableEq, Repr

/-- The `publishing` map lookup of `ParticipantState`. -/
def ParticipantState.publishing (p : ParticipantState)
    (typ : MediaSessionType) : Option MediaSessionState :=
  match typ with
  | MediaSessionType.Camera => p.camera
  | MediaSessionType.ScreenCapture => p.screen

/-- `ParticipantState::publishes`: `None` whenever the participant does
not consent to the recording, otherwise the publishing entry. -/
def ParticipantState.publishes (p : ParticipantState)
    (typ : MediaSessionType) : Option MediaSessionState :=
  if ¬p.consents then none else p.publishing typ

/-- Roster of the signaling client: participant id to state (a `HashMap`
in the source, modelled as an association list). -/
abbrev Roster := List (Nat × ParticipantState)

/-- Roster lookup, `Signaling::participant`. -/
def rosterLookup (roster : Roster) (id : Nat) : Option ParticipantState :=
  (List.find? (fun p => p.1 = id) roster).map Prod.snd

/-- The roster-changing signaling events whose handlers in
`RecordingSession::handle_signaling_event` (`recorder-main/src/recorder.rs`)
can issue subscriptions. The SDP / focus / error events never call
`subscribe` and are omitted. -/
inductive RosterEvent where
  | joinSuccess
  | participantJoined (id : Nat)
  | participantUpdated (id : Nat)
  | participantLeft (id : Nat)
deriving DecidableEq, Repr

/-- Accumulated observable effects of one event handler: the talk state
and the list of `(add_stream + start_subscribe)` calls in issue order. -/
structure HandlerRun where
  talk : TalkState
  subscribed : List StreamId
  ok : Bool
deriving Repr

/-- `RecordingSession::subscribe` (`recorder-main/src/recorder.rs`):
`talk.add_stream`, `signaling.start_subscribe`, and `talk.show_stream`
when the stream carries video. -/
def subscribeStream (run : HandlerRun) (sid : StreamId)
    (displayName : String) (mediaState : MediaSessionState) : HandlerRun :=
  let r := talkAddStream run.talk sid displayName mediaState.toStatus
  if r.2 then
    let run' :=
      { run with talk := r.1, subscribed := run.subscribed ++ [sid] }
    if mediaState.video then
      let r2 := talkShowStream run'.talk sid
      { run' with talk := r2.1, ok := r2.2 }
    else
      run'
  else
    { run with talk := r.1, ok := false }

/-- Fold a handler step over a list, stopping at the first error (`?` in
the source aborts the handler). -/
def foldStop {α : Type} (step : HandlerRun → α → HandlerRun) :
    HandlerRun → List α → HandlerRun
  | run, [] => run
  | run, x :: xs =>
    let run := step run x
    if run.ok then foldStop step run xs else run

/-- One media type of the subscription loop in the `JoinSuccess` and
`ParticipantJoined` arms: subscribe when the participant publishes the
type with consent. -/
def joinStep (id : Nat) (p : ParticipantState) (run : HandlerRun)
    (typ : MediaSessionType) : HandlerRun :=
  match p.publishes typ with
  | some mediaState =>
    subscribeStream run (StreamId.mk id typ) p.displayName mediaState
  | none => run

/-- Subscription step of the `JoinSuccess` and `ParticipantJoined` arms:
for each media type (`media_types()` order) that the participant
publishes with consent, subscribe. -/
def subscribeAllPublished (id : Nat) (p : ParticipantState)
    (run : HandlerRun) : HandlerRun :=
  foldStop (joinStep id p) run mediaTypes

/-- One media type of the `ParticipantUpdated` arm: subscribe when newly
published, remove when no longer published, otherwise update the status. -/
def updStep (p : ParticipantState) (id : Nat) (run : HandlerRun)
    (typ : MediaSessionType) : HandlerRun :=
  let sid := StreamId.mk id typ
  if ¬containsStream run.talk sid then
    match p.publishes typ with
    | some mediaState => subscribeStream run sid p.displayName mediaState
    | none => run
  else
    match p.publishes typ with
    | none =>
      let r := talkRemoveStream run.talk sid
      { run with talk := r.1, ok := r.2 }
    | some mediaState =>
      let r := talkSetStatus run.talk sid mediaState.toStatus
      { run with talk := r.1, ok := r.2 }

/-- The `ParticipantUpdated` arm: per media type, subscribe when newly
published, remove when no longer published, otherwise update the status. -/
def handleParticipantUpdated (p : ParticipantState) (id : Nat)
    (run : HandlerRun) : HandlerRun :=
  foldStop (updStep p id) run mediaTypes

/-- One media type of the `ParticipantLeft` arm: remove the stream when
it is subscribed. -/
def leftStep (id : Nat) (run : HandlerRun)
    (typ : MediaSessionType) : HandlerRun :=
  let sid := StreamId.mk id typ
  if containsStream run.talk sid then
    let r := talkRemoveStream run.talk sid
    { run with talk := r.1, ok := r.2 }
  else
    run

/-- `RecordingSession::handle_signaling_event` restricted to the roster
events (`recorder-main/src/recorder.rs`). `JoinSuccess` walks the whole
roster; `ParticipantJoined` / `ParticipantUpdated` look the participant up
in the roster (already updated by the signaling client); `ParticipantLeft`
removes the participant's streams (the roster no longer contains it). -/
def handleSignalingEvent (roster : Roster) (talk : TalkState)
    (event : RosterEvent) : HandlerRun :=
  let run : HandlerRun := { talk := talk, subscribed := [], ok := true }
  match event with
  | RosterEvent.joinSuccess =>
    foldStop (fun run (entry : Nat × ParticipantState) =>
        subscribeAllPublished entry.1 entry.2 run)
      run roster
  | RosterEvent.participantJoined id =>
    match rosterLookup roster id with
    | some p => subscribeAllPublished id p run
    | none => { run with ok := false }
  | RosterEvent.participantUpdated id =>
    match rosterLookup roster id with
    | some p => handleParticipantUpdated p id run
    | none => { run with ok := false }
  | RosterEvent.participantLeft id =>
    foldStop (leftStep id) run mediaTypes

end Recorder

namespace Obelisk

/-- Lowercase one ASCII character, as `u8::to_ascii_lowercase`. -/
def asciiLowerChar (c : Char) : Char :=
  if 65 ≤ c.toNat ∧ c.toNat ≤ 90 then Char.ofNat (c.toNat + 32) else c

/-- `str::eq_ignore_ascii_case`. -/
def eqIgnoreAsciiCase (a b : String) : Bool :=
  a.toList.map asciiLowerChar = b.toList.map asciiLowerChar

/-- An `a=rtpmap` attribute (`sdp_types::attributes::rtpmap::RtpMap`). -/
structure RtpMap where
  payload : Nat
  encoding : String
  clockRate : Nat
deriving DecidableEq, Repr

/-- An `a=fmtp` attribute (`sdp_types::attributes::fmtp::Fmtp`). -/
structure Fmtp where
  format : Nat
  params : String
deriving DecidableEq, Repr

/-- The SDP media type of an `m=` line. -/
inductive MediaType where
  | audio
  | video
  | other
deriving DecidableEq, Repr

/-- SDP direction attribute
(`sdp_types::attributes::direction::Direction`). -/
inductive Direction where
  | sendRecv
  | sendOnly
  | recvOnly
  | inactive
deriving DecidableEq, Repr

/-- Gstreamer element names attached to a negotiated codec,
`GstCodecInfo` in `codec.rs` (the caps structure is summarised by its
payload number). -/
structure GstCodecInfo where
  payload : Nat
  rtppay : String
  rtpdepay : String
  encoder : String
  decoder : String
deriving DecidableEq, Repr

/-- `SdpCodecInfo` in `codec.rs`. -/
structure SdpCodecInfo where
  rtpmap : RtpMap
  fmtp : Option Fmtp
  gstElements : GstCodecInfo
deriving DecidableEq, Repr

/-- `CodecEntry` in `codec.rs`. -/
structure CodecEntry where
  staticPayload : Option Nat
  name : String
  create : Option RtpMap → Option Fmtp → Option SdpCodecInfo

/-- `g722_create`: requires an rtpmap from the offer. -/
def g722Create (rtpmap : Option RtpMap) (_ : Option Fmtp) :
    Option SdpCodecInfo :=
  match rtpmap with
  | none => none
  | some rtpmap =>
    some
      { rtpmap := rtpmap
        fmtp := none
        gstElements :=
          { payload := 9, rtppay := "rtpg722pay", rtpdepay := "rtpg722depay",
            encoder := "avenc_g722", decoder := "avdec_g722" } }

/-- `pcma_create`: synthesises a default rtpmap when the offer has none. -/
def pcmaCreate (rtpmap : Option RtpMap) (_ : Option Fmtp) :
    Option SdpCodecInfo :=
  let rtpmap := rtpmap.getD ⟨8, "PCMA", 8000⟩
  some
    { rtpmap := rtpmap
      fmtp := none
      gstElements :=
        { payload := 8, rtppay := "rtppcmapay", rtpdepay := "rtppcmadepay",
          encoder := "alawenc", decoder := "alawdec" } }

/-- `pcmu_create`: synthesises a default rtpmap when the offer has none. -/
def pcmuCreate (rtpmap : Option RtpMap) (_ : Option Fmtp) :
    Option SdpCodecInfo :=
  let rtpmap := rtpmap.getD ⟨0, "PCMU", 8000⟩
  some
    { rtpmap := rtpmap
      fmtp := none
      gstElements :=
        { payload := 0, rtppay := "rtppcmupay", rtpdepay := "rtppcmudepay",
          encoder := "mulawenc", decoder := "mulawdec" } }

/-- `CODEC_LIST` in `codec.rs`: priority order G722, PCMA, PCMU. -/
def codecList : List CodecEntry :=
  [ ⟨some 9, "G722", g722Create⟩,
    ⟨some 8, "PCMA", pcmaCreate⟩,
    ⟨some 0, "PCMU", pcmuCreate⟩ ]

/-- One SDP media scope (`sdp_types::msg::MediaScope` restricted to the
fields `respond` and `choose_codec` read). Connection addresses are
modelled as IPv4 integers; `0` is the unspecified address `0.0.0.0`
(FQDN resolution, an IO path in `tagged_to_socket_addr`, is outside the
model). -/
structure MediaScope where
  mediaType : MediaType
  port : Nat
  rtcpPort : Option Nat
  connection : Option Nat
  direction : Direction
  fmts : List Nat
  rtpmaps : List RtpMap
  fmtps : List Fmtp
deriving DecidableEq, Repr

/-- `choose_codec` (`codec.rs`): walk the priority list; per entry first
try the static payload numbers declared in the `m=` line, then match
rtpmaps by encoding name case-insensitively; the first `create` that
succeeds wins. -/
def chooseCodec (offer : MediaScope) : Option SdpCodecInfo :=
  codecList.findSome? (fun entry =>
    match
      offer.fmts.findSome? (fun payload =>
        if entry.staticPayload = some payload then
          entry.create (offer.rtpmaps.find? (fun x => x.payload = payload))
            (offer.fmtps.find? (fun x => x.format = payload))
        else none)
    with
    | some info => some info
    | none =>
      offer.rtpmaps.findSome? (fun rtpmap =>
        if eqIgnoreAsciiCase rtpmap.encoding entry.name then
          entry.create (some rtpmap)
            (offer.fmtps.find? (fun x => x.format = rtpmap.payload))
        else none))

/-- A parsed SDP message (`sdp_types::msg::Message` restricted to the
fields `respond` reads). The origin's session id and version are modelled
as already-parsed numbers. -/
structure SdpMessage where
  sessionId : Nat
  sessionVersion : Nat
  connection : Option Nat
  mediaScopes : List MediaScope
deriving DecidableEq, Repr

/-- A socket address (IPv4 integer plus port). -/
structure SockAddr where
  ip : Nat
  port : Nat
deriving DecidableEq, Repr

/-- `Ipv4Addr::is_unspecified` for the model. -/
def SockAddr.isUnspecified (a : SockAddr) : Bool := a.ip = 0

/-- The direction rule of `respond` (`sdp.rs`, lines 98–105). -/
def respondDirection (originUnspecified : Bool) (d : Direction) : Direction :=
  match d with
  | Direction.sendRecv =>
    if originUnspecified then Direction.recvOnly else Direction.sendRecv
  | Direction.recvOnly =>
    if originUnspecified then Direction.inactive else Direction.sendOnly
  | Direction.sendOnly => Direction.recvOnly
  | Direction.inactive => Direction.inactive

/-- Is an rtpmap the 8 kHz telephone-event entry (`sdp.rs`, line 142)? -/
def isTelephoneEvent (rtpmap : RtpMap) : Bool :=
  eqIgnoreAsciiCase rtpmap.encoding "telephone-event" ∧ rtpmap.clockRate = 8000

/-- `SessionInfo` in `sdp.rs`: the outcome of a successful negotiation
(the answer message is summarised by its direction, which is used both at
session level and in the single media scope). -/
structure SessionInfo where
  direction : Direction
  remoteId : Nat
  remoteVersion : Nat
  telephoneEventPt : Nat
  rtpAddr : SockAddr
  rtcpAddr : SockAddr
  gstElements : GstCodecInfo
deriving DecidableEq, Repr

/-- `respond` (`sdp.rs`): reject unless the offer has exactly one audio
media scope, a negotiable codec, a connection address and a telephone-event
rtpmap; derive the answer direction by `respondDirection`. (The last
matching telephone-event rtpmap determines the recorded payload type.) -/
def respond (offer : SdpMessage) : Option SessionInfo :=
  match offer.mediaScopes with
  | [media] =>
    if media.mediaType ≠ MediaType.audio then none
    else
      match chooseCodec media with
      | none => none
      | some codecInfo =>
        let peerRtpPort := media.port
        let peerRtcpPort := media.rtcpPort.getD (peerRtpPort + 1)
        match media.connection.or offer.connection with
        | none => none
        | some connectionIp =>
          let peerRtpAddr : SockAddr := ⟨connectionIp, peerRtpPort⟩
          let peerRtcpAddr : SockAddr := ⟨connectionIp, peerRtcpPort⟩
          let originUnspecified := peerRtpAddr.isUnspecified
          let direction := respondDirection originUnspecified media.direction
          match ((media.rtpmaps.filter isTelephoneEvent).map
              RtpMap.payload).getLast? with
          | none => none
          | some telephoneEventPt =>
            some
              { direction := direction
                remoteId := offer.sessionId
                remoteVersion := offer.sessionVersion
                telephoneEventPt := telephoneEventPt
                rtpAddr := peerRtpAddr
                rtcpAddr := peerRtcpAddr
                gstElements := codecInfo.gstElements }
  | _ => none

/-- Is data sent for a negotiated direction
(`matches!(.., SendRecv | SendOnly)` in `sip_bin/mod.rs`)? -/
def sendsData (d : Direction) : Bool :=
  d = Direction.sendRecv ∨ d = Direction.sendOnly

/-- The default / parking destination `127.0.0.1:9` of the udp sinks. -/
def loopbackDiscard : SockAddr := ⟨2130706433, 9⟩

/-- Observable state of a `SipBin` (`sip_bin/mod.rs`): local SDP ids, the
current session info, the destination currently programmed into the
RTP/RTCP udp sinks, and the `drop` flag of the audio input valve. -/
structure SipState where
  id : Nat
  version : Nat
  localRtpAddr : SockAddr
  localRtcpAddr : SockAddr
  current : SessionInfo
  rtpDest : SockAddr
  rtcpDest : SockAddr
  holdDrop : Bool
deriving DecidableEq, Repr

/-- `SipBin::update` (`sip_bin/mod.rs`): bump the local version, run
`respond` on the new offer, and only when the offer's remote version is
strictly greater than the stored one apply destination and hold changes;
the stored session info is replaced in any successful case. Returns the
state together with whether the call succeeded. -/
def sipBinUpdate (st : SipState) (offer : SdpMessage) : SipState × Bool :=
  let st := { st with version := st.version + 1 }
  match respond offer with
  | none => (st, false)
  | some sessionInfo =>
    let sendData := sendsData sessionInfo.direction
    let st :=
      if sessionInfo.remoteVersion > st.current.remoteVersion then
        let st :=
          if sessionInfo.rtpAddr.isUnspecified then
            { st with rtpDest := loopbackDiscard, rtcpDest := loopbackDiscard }
          else if sessionInfo.rtpAddr ≠ st.current.rtpAddr ∨
              sessionInfo.rtcpAddr ≠ st.current.rtcpAddr then
            { st with rtpDest := sessionInfo.rtpAddr,
                      rtcpDest := sessionInfo.rtcpAddr }
          else st
        { st with holdDrop := ¬sendData }
      else st
    ({ st with current := sessionInfo }, true)

namespace Dtmf

/-- Depayloader state (`custom_rtpdtmfdepay.rs`): the last RTP timestamp
for which a `dtmf-event` message was posted. RTP timestamps are `u32`;
only comparisons are performed, so they are modelled as `Nat`. -/
abbrev DepayState := Option Nat

/-- `RTPDtmfDepayClass::try_process_rtp_packet` reduced to its emission
decision: a `dtmf-event` message is posted, and the stored timestamp
advanced, exactly when `state.last_timestamp < Some(timestamp)` — the RTP
marker bit is deliberately not consulted. `none < some t` holds for every
`t`, so the first packet always emits. -/
def processPacket (last : DepayState) (timestamp : Nat) :
    DepayState × Bool :=
  match last with
  | none => (some timestamp, true)
  | some l =>
    if l < timestamp then (some timestamp, true) else (some l, false)

/-- Run the depayloader over a packet sequence (given by the packets' RTP
timestamps) and count the emitted `dtmf-event` messages. -/
def emitCount : DepayState → List Nat → Nat
  | _, [] => 0
  | last, t :: ts =>
    let (last, emitted) := processPacket last t
    (if emitted then 1 else 0) + emitCount last ts

/-- The count the claim describes: the number of strictly-increasing
transitions between consecutive packets of the sequence. -/
def strictIncTransitions : List Nat → Nat
  | [] => 0
  | [_] => 0
  | a :: b :: ts => (if a < b then 1 else 0) + strictIncTransitions (b :: ts)

/-- Declarative characterisation of what the code emits: the number of
strict left-to-right maxima of the sequence (packets whose timestamp
strictly exceeds every earlier timestamp; the first packet is one). -/
def recordCount : List Nat → Nat
  | [] => 0
  | t :: ts => 1 + recordCountFrom t ts
where
  /-- Records of `ts` above the running maximum `m`. -/
  recordCountFrom (m : Nat) : List Nat → Nat
    | [] => 0
    | t :: ts =>
      if m < t then 1 + recordCountFrom t ts else recordCountFrom m ts

end Dtmf

namespace DialIn

/-- Audio prompt tracks (`media::Track`, as used by `signaling.rs`). -/
inductive Track where
  | welcomePasscode
  | welcomeUsage
  | inputInvalid
  | silence
  | muted
  | unmuted
  | handRaised
  | handLowered
deriving DecidableEq, Repr

/-- Observable effects of handling one DTMF digit: prompts played, the
publish-mute flag pushed into the media pipeline, and the websocket
messages sent (`update_media_session` audio mute, raise/lower hand). -/
inductive Action where
  | playTrack (t : Track)
  | publishMute (muted : Bool)
  | sendAudioMute (muted : Bool)
  | sendHandAction (raised : Bool)
deriving DecidableEq, Repr

/-- Outcome of `Signaling::join` (controller `start` + websocket join),
supplied as an oracle to the handler. -/
inductive JoinOutcome where
  | success
  | invalidCredentials
  | otherError
deriving DecidableEq, Repr

/-- The dial-in relevant state of `Signaling` (`obelisk-main/src/
signaling.rs`): both DTMF digit buffers, the mute and hand flags, and
whether the websocket connection has been established (it is `Some` after
a successful join). -/
structure SigState where
  dtmfId : String
  dtmfPw : String
  muted : Bool
  handRaised : Bool
  websocketConnected : Bool
deriving DecidableEq, Repr

/-- `Signaling::handle_media_event` restricted to the
`MediaEvent::DtmfDigit` arms (`signaling.rs`, lines 208–280). Digits are
`0..=9`; `10` is `*`; `11` is `#`. The first arm is guarded by
`dtmf_pw.len() < 10` (dialing); every later digit falls into the second
arm, which only reacts to `0`, `1` and `2`. Returns the new state, the
emitted actions in order, and whether the handler returned `Ok`. -/
def handleDtmfDigit (joinOutcome : JoinOutcome) (st : SigState)
    (digit : Nat) : SigState × List Action × Bool :=
  if st.dtmfPw.length < 10 then
    -- dialing into the session
    if digit = 11 then
      ({ st with dtmfId := "", dtmfPw := "" }, [], true)
    else if digit = 10 then
      (st, [], true)
    else if digit ≤ 9 then
      if st.dtmfId.length < 10 then
        let st := { st with dtmfId := st.dtmfId ++ toString digit }
        if st.dtmfId.length = 10 then
          (st, [Action.playTrack Track.welcomePasscode], true)
        else
          (st, [], true)
      else
        let st := { st with dtmfPw := st.dtmfPw ++ toString digit }
        if st.dtmfPw.length = 10 then
          match joinOutcome with
          | JoinOutcome.success =>
            ({ st with websocketConnected := true },
              [Action.playTrack Track.welcomeUsage], true)
          | JoinOutcome.invalidCredentials =>
            ({ st with dtmfId := "", dtmfPw := "" },
              [Action.playTrack Track.inputInvalid], true)
          | JoinOutcome.otherError => (st, [], false)
        else
          (st, [], true)
    else
      (st, [], true)
  else
    -- in-call controls
    if digit = 0 then
      (st, [Action.playTrack Track.silence], true)
    else if digit = 1 then
      if st.websocketConnected then
        let muted := !st.muted
        ({ st with muted := muted },
          [Action.publishMute muted,
           Action.playTrack (if muted then Track.muted else Track.unmuted),
           Action.sendAudioMute muted], true)
      else
        (st, [], true)
    else if digit = 2 then
      if st.websocketConnected then
        let raised := !st.handRaised
        ({ st with handRaised := raised },
          [Action.playTrack
             (if raised then Track.handRaised else Track.handLowered),
           Action.sendHandAction raised], true)
      else
        (st, [], true)
    else
      (st, [], true)

end DialIn

end Obelisk

section Theorems

open Compositor Recorder Obelisk

/-- Every direction is mapped to `recvonly` or `inactive` when the remote
connection address is unspecified. -/
theorem respondDirection_unspecified_no_send (d : Obelisk.Direction) :
    respondDirection true d = Obelisk.Direction.recvOnly ∨
      respondDirection true d = Obelisk.Direction.inactive := by
  cases d <;> simp [respondDirection]

/-- C6: for every offer the negotiator accepts, the answer direction is
`respondDirection` of the offer direction (collapsing `sendrecv→recvonly`
and `recvonly→inactive` when the remote address is 0.0.0.0, swapping
`sendonly↔recvonly` and keeping `sendrecv`/`inactive` otherwise), and an
unspecified remote address always yields a direction without a send
component. -/
theorem c6_answer_direction :
    (respondDirection true Obelisk.Direction.sendRecv
        = Obelisk.Direction.recvOnly ∧
      respondDirection true Obelisk.Direction.recvOnly
        = Obelisk.Direction.inactive) ∧
    (respondDirection false Obelisk.Direction.sendOnly
        = Obelisk.Direction.recvOnly ∧
      respondDirection false Obelisk.Direction.recvOnly
        = Obelisk.Direction.sendOnly ∧
      respondDirection false Obelisk.Direction.sendRecv
        = Obelisk.Direction.sendRecv ∧
      respondDirection false Obelisk.Direction.inactive
        = Obelisk.Direction.inactive) ∧
    (∀ (offer : SdpMessage) (media : MediaScope) (si : SessionInfo),
      offer.mediaScopes = [media] → respond offer = some si →
      si.direction
          = respondDirection si.rtpAddr.isUnspecified media.direction ∧
        (si.rtpAddr.isUnspecified = true →
          si.direction = Obelisk.Direction.recvOnly ∨
            si.direction = Obelisk.Direction.inactive)) := by
  refine ⟨⟨rfl, rfl⟩, ⟨rfl, rfl, rfl, rfl⟩, ?_⟩
  intro offer media si hscopes hresp
  obtain ⟨sid, sver, conn, scopes⟩ := offer
  simp only at hscopes
  subst hscopes
  simp only [respond] at hresp
  split at hresp
  · exact absurd hresp (by simp)
  · split at hresp
    · exact absurd hresp (by simp)
    · split at hresp
      · exact absurd hresp (by simp)
      · split at hresp
        · exact absurd hresp (by simp)
        · rw [Option.some.injEq] at hresp
          subst hresp
          refine ⟨rfl, fun hu => ?_⟩
          have := respondDirection_unspecified_no_send media.direction
          simp only [SessionInfo.mk.injEq] at *
          rw [show (SockAddr.isUnspecified _) = true from hu] at *
          exact this

/-- Offer used to witness C6: single audio scope, G722 and
telephone-event rtpmaps, connection address 0.0.0.0. -/
def c6Media : MediaScope :=
  { mediaType := MediaType.audio, port := 4000, rtcpPort := none,
    connection := none, direction := Obelisk.Direction.sendRecv,
    fmts := [9],
    rtpmaps := [⟨9, "G722", 8000⟩, ⟨101, "telephone-event", 8000⟩],
    fmtps := [] }

/-- The offer around `c6Media`, with session-level connection 0.0.0.0. -/
def c6Offer : SdpMessage :=
  { sessionId := 11, sessionVersion := 3, connection := some 0,
    mediaScopes := [c6Media] }

/-- The session info the negotiator produces for `c6Offer`. -/
def c6Si : SessionInfo :=
  { direction := Obelisk.Direction.recvOnly, remoteId := 11,
    remoteVersion := 3, telephoneEventPt := 101,
    rtpAddr := ⟨0, 4000⟩, rtcpAddr := ⟨0, 4001⟩,
    gstElements :=
      { payload := 9, rtppay := "rtpg722pay", rtpdepay := "rtpg722depay",
        encoder := "avenc_g722", decoder := "avdec_g722" } }

/-- Witness for C6: a concrete accepted offer with an unspecified address
whose `sendrecv` is answered with `recvonly`. -/
theorem c6_answer_direction_witness :
    respond c6Offer = some c6Si ∧
      c6Si.direction
        = respondDirection c6Si.rtpAddr.isUnspecified c6Media.direction := by
  refine ⟨by decide, ?_⟩
  exact (c6_answer_direction.2.2 c6Offer c6Media c6Si rfl (by decide)).1

/-- C4 (failing input): with the Grid layout at canvas 1920×1080 and one
visible stream, the stream at position 1 (the first invisible one) is
still assigned a view — `Grid::calculate_stream_view` has no `None`
branch — so the re-layout pass sets its pad to alpha 1; the Speaker
layout returns `None` and alpha 0 there, as the claim demands. -/
theorem c4_grid_invisible_index_eval :
    (Grid.calculateStreamView ⟨1920, 1080⟩ 1 1).isSome = true ∧
      rerenderAlpha LayoutKind.grid ⟨1920, 1080⟩ 1 1 = 1 ∧
      Speaker.calculateStreamView ⟨1920, 1080⟩ 1 1 = none ∧
      rerenderAlpha LayoutKind.speaker ⟨1920, 1080⟩ 1 1 = 0 := by
  decide

/-- C5 (counterexample): for the timestamp sequence `[10, 5, 6, 7]` the
depayloader emits one event (only the first packet beats the stored
timestamp, which never decreases), while the sequence has two
strictly-increasing transitions (5→6 and 6→7) — so the emitted count
equals neither the transition count nor the transition count plus one. -/
theorem c5_dtmf_count_counterexample :
    Dtmf.emitCount none [10, 5, 6, 7] = 1 ∧
      Dtmf.strictIncTransitions [10, 5, 6, 7] = 2 := by
  decide

/-- The stateful emission count starting from a stored timestamp matches
the record count above that running maximum. -/
theorem emitCount_some_eq_recordCountFrom (ts : List Nat) (m : Nat) :
    Dtmf.emitCount (some m) ts = Dtmf.recordCount.recordCountFrom m ts := by
  induction ts generalizing m with
  | nil => rfl
  | cons t ts ih =>
    simp only [Dtmf.emitCount, Dtmf.processPacket,
      Dtmf.recordCount.recordCountFrom]
    by_cases h : m < t
    · simp [h, ih]
    · simp [h, ih]

/-- C5 (amended): the number of `dtmf-event` messages emitted for a packet
sequence equals the number of strict left-to-right maxima of its RTP
timestamps (the stored last timestamp only advances on emission, so a
packet emits exactly when it beats every earlier timestamp; the first
packet always emits). -/
theorem c5_dtmf_emit_records (ts : List Nat) :
    Dtmf.emitCount none ts = Dtmf.recordCount ts := by
  cases ts with
  | nil => rfl
  | cons t ts =>
    simp [Dtmf.emitCount, Dtmf.processPacket, Dtmf.recordCount,
      emitCount_some_eq_recordCountFrom]

/-- C10: adding a stream whose id is already registered fails and leaves
the whole observable state (stream registry, visibility list, display-name
map) untouched. -/
theorem c10_duplicate_add_atomic (st : TalkState) (id : StreamId)
    (displayName : String) (status : StreamStatus)
    (h : containsStream st id = true) :
    talkAddStream st id displayName status = (st, false) := by
  simp [talkAddStream, mixerAddStream, h]

/-- A state already containing stream `(1, Camera)`, used by the C10
witness. -/
def c10State : TalkState :=
  { streams := [(StreamId.camera 1, ⟨true, true⟩)],
    visibles := [StreamId.camera 1],
    names := [(StreamId.camera 1, "Alice")], maxVisibles := 8,
    currentSpeaker := none }

/-- Witness for C10 at a concrete duplicate id. -/
theorem c10_duplicate_add_atomic_witness :
    containsStream c10State (StreamId.camera 1) = true ∧
      talkAddStream c10State (StreamId.camera 1) "Alice" ⟨true, true⟩
        = (c10State, false) :=
  ⟨by decide,
    c10_duplicate_add_atomic c10State (StreamId.camera 1) "Alice"
      ⟨true, true⟩ (by decide)⟩

/-- The `GstCodecInfo` of the G722 entry. -/
def g722Gst : GstCodecInfo :=
  { payload := 9, rtppay := "rtpg722pay", rtpdepay := "rtpg722depay",
    encoder := "avenc_g722", decoder := "avdec_g722" }

/-- Scanning the `m=` payload numbers for the G722 entry succeeds as soon
as 9 is declared and an rtpmap for payload 9 exists. -/
theorem g722_static_scan (fmts : List Nat) (rtpmaps : List RtpMap)
    (fmtps : List Fmtp) (rm : RtpMap) (h9 : 9 ∈ fmts)
    (hrm : rtpmaps.find? (fun x => x.payload = 9) = some rm) :
    (fmts.findSome? (fun payload =>
      if (some 9 : Option Nat) = some payload then
        g722Create (rtpmaps.find? (fun x => x.payload = payload))
          (fmtps.find? (fun x => x.format = payload))
      else none)) = some ⟨rm, none, g722Gst⟩ := by
  induction fmts with
  | nil => cases h9
  | cons p ps ih =>
    by_cases hp : p = 9
    · subst hp
      simp [List.findSome?_cons, hrm, g722Create, g722Gst]
    · have h9' : 9 ∈ ps := by
        cases h9 with
        | head => exact absurd rfl hp
        | tail _ h => exact h
      simp only [List.findSome?_cons]
      rw [if_neg (by simp [Ne.symm hp])]
      exact ih h9'

/-- C7 (amended): the codec walk prefers G722; an offer that declares the
static payload number 9 in its `m=` line selects G722 provided it also
carries an rtpmap entry for payload 9 (the G722 constructor requires that
rtpmap, unlike PCMA and PCMU which synthesise a default one). -/
theorem c7_codec_priority (offer : MediaScope) (rm : RtpMap)
    (h9 : 9 ∈ offer.fmts)
    (hrm : offer.rtpmaps.find? (fun x => x.payload = 9) = some rm) :
    chooseCodec offer = some ⟨rm, none, g722Gst⟩ := by
  have hscan := g722_static_scan offer.fmts offer.rtpmaps offer.fmtps rm h9 hrm
  simp only [chooseCodec, codecList, List.findSome?_cons]
  rw [hscan]

/-- Offer scope declaring payload 9 but carrying no rtpmap at all. -/
def c7BareOffer : MediaScope :=
  { mediaType := MediaType.audio, port := 4000, rtcpPort := none,
    connection := some 1, direction := Obelisk.Direction.sendRecv,
    fmts := [9], rtpmaps := [], fmtps := [] }

/-- C7 (counterexample): an offer declaring static payload 9 in its `m=`
line but no rtpmap selects no codec at all — in particular not G722 —
because `g722_create` fails without an rtpmap. -/
theorem c7_codec_counterexample :
    9 ∈ c7BareOffer.fmts ∧ chooseCodec c7BareOffer = none := by
  constructor
  · decide
  · rfl

/-- Offer scope used by the C7 witness: payload 9 plus its rtpmap. -/
def c7Offer : MediaScope :=
  { mediaType := MediaType.audio, port := 4000, rtcpPort := none,
    connection := some 1, direction := Obelisk.Direction.sendRecv,
    fmts := [9, 0], rtpmaps := [⟨9, "G722", 8000⟩, ⟨0, "PCMU", 8000⟩],
    fmtps := [] }

/-- Witness for C7: the concrete offer above negotiates G722. -/
theorem c7_codec_priority_witness :
    9 ∈ c7Offer.fmts ∧
      chooseCodec c7Offer = some ⟨⟨9, "G722", 8000⟩, none, g722Gst⟩ :=
  ⟨by decide,
    c7_codec_priority c7Offer ⟨9, "G722", 8000⟩ (by decide) (by rfl)⟩

/-- C8: a reINVITE whose offer carries a remote session version at most
the stored one leaves the RTP/RTCP send destinations and the hold (valve
drop) state unchanged, and the call still succeeds (only the stored
session info and local version move). -/
theorem c8_reinvite_stale_version (st : SipState) (offer : SdpMessage)
    (si : SessionInfo) (hresp : respond offer = some si)
    (hver : si.remoteVersion ≤ st.current.remoteVersion) :
    (sipBinUpdate st offer).1.rtpDest = st.rtpDest ∧
      (sipBinUpdate st offer).1.rtcpDest = st.rtcpDest ∧
      (sipBinUpdate st offer).1.holdDrop = st.holdDrop ∧
      (sipBinUpdate st offer).2 = true := by
  have hnot : ¬si.remoteVersion > st.current.remoteVersion := by omega
  simp [sipBinUpdate, hresp, hnot]

/-- Offer used by the C8 witness (remote version 5). -/
def c8Offer : SdpMessage :=
  { sessionId := 21, sessionVersion := 5, connection := some 1,
    mediaScopes :=
      [{ mediaType := MediaType.audio, port := 4000, rtcpPort := none,
         connection := none, direction := Obelisk.Direction.sendRecv,
         fmts := [9],
         rtpmaps := [⟨9, "G722", 8000⟩, ⟨101, "telephone-event", 8000⟩],
         fmtps := [] }] }

/-- The session info `respond` computes for `c8Offer`. -/
def c8Si : SessionInfo :=
  { direction := Obelisk.Direction.sendRecv, remoteId := 21,
    remoteVersion := 5, telephoneEventPt := 101,
    rtpAddr := ⟨1, 4000⟩, rtcpAddr := ⟨1, 4001⟩, gstElements := g722Gst }

/-- A `SipBin` state that has already seen remote version 7. -/
def c8State : SipState :=
  { id := 21, version := 10, localRtpAddr := ⟨9, 6000⟩,
    localRtcpAddr := ⟨9, 6001⟩,
    current :=
      { direction := Obelisk.Direction.sendRecv, remoteId := 21,
        remoteVersion := 7, telephoneEventPt := 101,
        rtpAddr := ⟨2, 5000⟩, rtcpAddr := ⟨2, 5001⟩,
        gstElements := g722Gst },
    rtpDest := ⟨2, 5000⟩, rtcpDest := ⟨2, 5001⟩, holdDrop := false }

/-- Witness for C8: the stale reINVITE (version 5 against stored 7)
changes neither destination nor hold. -/
theorem c8_reinvite_stale_version_witness :
    respond c8Offer = some c8Si ∧
      (sipBinUpdate c8State c8Offer).1.rtpDest = c8State.rtpDest ∧
      (sipBinUpdate c8State c8Offer).1.rtcpDest = c8State.rtcpDest ∧
      (sipBinUpdate c8State c8Offer).1.holdDrop = c8State.holdDrop ∧
      (sipBinUpdate c8State c8Offer).2 = true :=
  ⟨by decide,
    c8_reinvite_stale_version c8State c8Offer c8Si (by decide) (by decide)⟩

/-- C9 (amended): after the session has joined (passcode buffer complete,
websocket connected), a `#` digit is ignored — the buffer-clearing arm is
only reachable while dialing — while digit 1 toggles mute (pushing the
publish-mute, playing Muted/Unmuted and sending the audio-mute update),
digit 2 toggles the hand raise (playing HandRaised/HandLowered and sending
the hand action) and digit 0 plays the silence track. -/
theorem c9_after_join_digits (jo : Obelisk.DialIn.JoinOutcome)
    (st : Obelisk.DialIn.SigState) (hpw : 10 ≤ st.dtmfPw.length)
    (hws : st.websocketConnected = true) :
    Obelisk.DialIn.handleDtmfDigit jo st 11 = (st, [], true) ∧
      Obelisk.DialIn.handleDtmfDigit jo st 1
        = ({ st with muted := !st.muted },
            [Obelisk.DialIn.Action.publishMute (!st.muted),
             Obelisk.DialIn.Action.playTrack
               (if !st.muted then Obelisk.DialIn.Track.muted
                else Obelisk.DialIn.Track.unmuted),
             Obelisk.DialIn.Action.sendAudioMute (!st.muted)], true) ∧
      Obelisk.DialIn.handleDtmfDigit jo st 2
        = ({ st with handRaised := !st.handRaised },
            [Obelisk.DialIn.Action.playTrack
               (if !st.handRaised then Obelisk.DialIn.Track.handRaised
                else Obelisk.DialIn.Track.handLowered),
             Obelisk.DialIn.Action.sendHandAction (!st.handRaised)], true) ∧
      Obelisk.DialIn.handleDtmfDigit jo st 0
        = (st, [Obelisk.DialIn.Action.playTrack
            Obelisk.DialIn.Track.silence], true) := by
  have hguard : ¬st.dtmfPw.length < 10 := by omega
  refine ⟨?_, ?_, ?_, ?_⟩ <;>
    simp [Obelisk.DialIn.handleDtmfDigit, hguard, hws]

/-- The in-call state used by the C9 witness and counterexample: both
buffers complete, websocket connected, currently muted. -/
def c9State : Obelisk.DialIn.SigState :=
  { dtmfId := "1234567890", dtmfPw := "0123456789", muted := true,
    handRaised := false, websocketConnected := true }

/-- Witness for C9 at a concrete joined state: digit 1 unmutes (playing
the Unmuted track and sending the audio-mute update) and digit 0 plays
silence. -/
theorem c9_after_join_digits_witness :
    Obelisk.DialIn.handleDtmfDigit Obelisk.DialIn.JoinOutcome.success
        c9State 1
      = ({ c9State with muted := false },
          [Obelisk.DialIn.Action.publishMute false,
           Obelisk.DialIn.Action.playTrack Obelisk.DialIn.Track.unmuted,
           Obelisk.DialIn.Action.sendAudioMute false], true) ∧
    Obelisk.DialIn.handleDtmfDigit Obelisk.DialIn.JoinOutcome.success
        c9State 0
      = (c9State,
          [Obelisk.DialIn.Action.playTrack Obelisk.DialIn.Track.silence],
          true) := by
  have h := c9_after_join_digits Obelisk.DialIn.JoinOutcome.success c9State
    (by decide) (by decide)
  exact ⟨by rw [h.2.1]; rfl, h.2.2.2⟩

/-- C9 (counterexample): in the joined state `c9State`, the `#` digit
(11) leaves both DTMF buffers untouched — they are not cleared as the
claim states. -/
theorem c9_hash_counterexample :
    c9State.dtmfPw.length = 10 ∧ c9State.websocketConnected = true ∧
      (Obelisk.DialIn.handleDtmfDigit Obelisk.DialIn.JoinOutcome.success
          c9State 11).1.dtmfId = "1234567890" ∧
      (Obelisk.DialIn.handleDtmfDigit Obelisk.DialIn.JoinOutcome.success
          c9State 11).1.dtmfPw = "0123456789" := by
  refine ⟨by decide, by decide, ?_, ?_⟩ <;> rfl

/-- Filtering out an element that does not occur leaves a list unchanged. -/
theorem filter_ne_of_not_mem {α : Type} [DecidableEq α] {a : α}
    {l : List α} (h : a ∉ l) : l.filter (fun v => v ≠ a) = l := by
  apply List.filter_eq_self.mpr
  intro b hb
  simp only [decide_eq_true_eq]
  exact fun e => h (e ▸ hb)

/-- `Mixer::set_stream_to_position` only rearranges the visibility list
and always succeeds. -/
theorem setStreamToPosition_eq (st : TalkState) (id : StreamId) (n : Nat) :
    setStreamToPosition st id n
      = ({ st with visibles :=
            if st.visibles.head? = some id then st.visibles
            else insertAt n id (st.visibles.filter (fun v => v ≠ id)) },
          true) := by
  unfold setStreamToPosition
  by_cases hh : st.visibles.head? = some id
  · simp [hh]
  · simp [hh]

/-- With a duplicate-free visibility list, moving a stream to the first
position yields exactly that stream followed by the other visibles. -/
theorem setStreamToFirstPosition_eq (st : TalkState) (id : StreamId)
    (hnd : st.visibles.Nodup) :
    setStreamToFirstPosition st id
      = ({ st with visibles :=
            id :: st.visibles.filter (fun v => v ≠ id) }, true) := by
  rw [setStreamToFirstPosition, setStreamToPosition_eq]
  by_cases hh : st.visibles.head? = some id
  · rw [if_pos hh]
    cases hv : st.visibles with
    | nil => rw [hv] at hh; cases hh
    | cons a rest =>
      rw [hv] at hh hnd
      simp only [List.head?_cons, Option.some.injEq] at hh
      subst hh
      have hmem : a ∉ rest := (List.nodup_cons.mp hnd).1
      have hfil : (a :: rest).filter (fun v => v ≠ a) = rest := by
        simp only [List.filter_cons]
        rw [if_neg (by simp)]
        exact filter_ne_of_not_mem hmem
      rw [hfil]
  · rw [if_neg hh]
    rfl

/-- A screen-capture stream id differs from every camera stream id. -/
theorem screen_ne_camera (p q : Nat) : StreamId.screen p ≠ StreamId.camera q := by
  simp [StreamId.screen, StreamId.camera]

/-- `Mixer::set_stream_to_first_position` always leaves the stream at the
head of the visibility list (also via the early return when it already is
first). -/
theorem setStreamToFirstPosition_head (st : TalkState) (id : StreamId) :
    (setStreamToFirstPosition st id).1.visibles.head? = some id := by
  rw [setStreamToFirstPosition, setStreamToPosition_eq]
  by_cases hh : st.visibles.head? = some id
  · rw [if_pos hh]
    exact hh
  · rw [if_neg hh]
    rfl

/-- The screen stage of `set_speaker` always succeeds. -/
theorem speakerScreenStage_ok (st : TalkState) (p : Nat) :
    (speakerScreenStage st p).2 = true := by
  unfold speakerScreenStage
  cases hl : lookupStream st (StreamId.screen p) with
  | none => rfl
  | some ss =>
    show (if ss.hasVideo = true then
        setStreamToFirstPosition st (StreamId.screen p)
      else (st, true)).2 = true
    by_cases hv : ss.hasVideo = true
    · rw [if_pos hv]
      show (setStreamToFirstPosition st (StreamId.screen p)).2 = true
      rw [setStreamToFirstPosition, setStreamToPosition_eq]
    · rw [if_neg hv]

/-- `set_speaker` is the camera stage after the screen stage (which never
fails) on the state with the speaker recorded. -/
theorem talkSetSpeaker_eq (st : TalkState) (p : Nat) :
    talkSetSpeaker st p
      = speakerCamStage
          (speakerScreenStage { st with currentSpeaker := some p } p).1
          p := by
  unfold talkSetSpeaker
  rw [if_pos (speakerScreenStage_ok { st with currentSpeaker := some p } p)]

/-- The screen stage with the speaker's screen registered with video is a
move of that screen to the first position. -/
theorem speakerScreenStage_eq_first (st : TalkState) (p : Nat)
    (ss : StreamStatus)
    (hs : lookupStream st (StreamId.screen p) = some ss)
    (hsv : ss.hasVideo = true) :
    speakerScreenStage st p
      = setStreamToFirstPosition st (StreamId.screen p) := by
  unfold speakerScreenStage
  cases hl : lookupStream st (StreamId.screen p) with
  | none =>
    rw [hs] at hl
    cases hl
  | some ss' =>
    rw [hl] at hs
    show (if ss'.hasVideo = true then
        setStreamToFirstPosition st (StreamId.screen p)
      else (st, true))
      = setStreamToFirstPosition st (StreamId.screen p)
    rw [if_pos (show ss'.hasVideo = true from by
      rw [Option.some.inj hs]
      exact hsv)]

/-- The screen stage without a registered-with-video screen for the
speaker is the identity. -/
theorem speakerScreenStage_no_video (st : TalkState) (p : Nat)
    (hscr : ∀ ss, lookupStream st (StreamId.screen p) = some ss →
      ss.hasVideo = false) :
    speakerScreenStage st p = (st, true) := by
  unfold speakerScreenStage
  cases hl : lookupStream st (StreamId.screen p) with
  | none => rfl
  | some ss =>
    show (if ss.hasVideo = true then
        setStreamToFirstPosition st (StreamId.screen p)
      else (st, true)) = (st, true)
    rw [if_neg (show ¬ss.hasVideo = true from by simp [hscr ss hl])]

/-- The camera stage with the speaker's camera registered with video and
no screen share visible is a move of that camera to the first position. -/
theorem speakerCamStage_eq_first (st : TalkState) (p : Nat)
    (cs : StreamStatus)
    (hc : lookupStream st (StreamId.camera p) = some cs)
    (hcv : cs.hasVideo = true)
    (hns : getFirstScreenCapture st = none) :
    speakerCamStage st p
      = setStreamToFirstPosition st (StreamId.camera p) := by
  unfold speakerCamStage
  cases hl : lookupStream st (StreamId.camera p) with
  | none =>
    rw [hc] at hl
    cases hl
  | some cs' =>
    rw [hl] at hc
    show (if cs'.hasVideo = true then
        (if (getFirstScreenCapture st).isNone = true then
          setStreamToFirstPosition st (StreamId.camera p)
        else setStreamToSecondPosition st (StreamId.camera p))
      else (st, true))
      = setStreamToFirstPosition st (StreamId.camera p)
    rw [if_pos (show cs'.hasVideo = true from by
      rw [Option.some.inj hc]
      exact hcv)]
    rw [if_pos (show (getFirstScreenCapture st).isNone = true from by
      rw [hns]
      rfl)]

/-- The camera stage with the speaker's camera registered with video and
some screen share visible is a move of that camera to the second
position. -/
theorem speakerCamStage_eq_second (st : TalkState) (p : Nat)
    (cs : StreamStatus)
    (hc : lookupStream st (StreamId.camera p) = some cs)
    (hcv : cs.hasVideo = true)
    (hsome : (getFirstScreenCapture st).isSome = true) :
    speakerCamStage st p
      = setStreamToSecondPosition st (StreamId.camera p) := by
  unfold speakerCamStage
  cases hl : lookupStream st (StreamId.camera p) with
  | none =>
    rw [hc] at hl
    cases hl
  | some cs' =>
    rw [hl] at hc
    show (if cs'.hasVideo = true then
        (if (getFirstScreenCapture st).isNone = true then
          setStreamToFirstPosition st (StreamId.camera p)
        else setStreamToSecondPosition st (StreamId.camera p))
      else (st, true))
      = setStreamToSecondPosition st (StreamId.camera p)
    rw [if_pos (show cs'.hasVideo = true from by
      rw [Option.some.inj hc]
      exact hcv)]
    rw [if_neg (show ¬(getFirstScreenCapture st).isNone = true from by
      cases hg : getFirstScreenCapture st with
      | none =>
        rw [hg] at hsome
        simp at hsome
      | some s => simp)]

/-- When the visibility list already starts with the speaker's screen,
the camera stage keeps that screen at the head: the camera is either not
moved at all or inserted at the second position behind it. -/
theorem speakerCamStage_head_screen (st : TalkState) (p : Nat)
    (hh : st.visibles.head? = some (StreamId.screen p)) :
    (speakerCamStage st p).1.visibles.head?
      = some (StreamId.screen p) := by
  unfold speakerCamStage
  cases hl : lookupStream st (StreamId.camera p) with
  | none => exact hh
  | some cs =>
    show (if cs.hasVideo = true then
        (if (getFirstScreenCapture st).isNone = true then
          setStreamToFirstPosition st (StreamId.camera p)
        else setStreamToSecondPosition st (StreamId.camera p))
      else (st, true)).1.visibles.head? = some (StreamId.screen p)
    by_cases hv : cs.hasVideo = true
    · rw [if_pos hv]
      have hfind : ¬(getFirstScreenCapture st).isNone = true := by
        cases hvis : st.visibles with
        | nil =>
          rw [hvis] at hh
          simp at hh
        | cons a rest =>
          rw [hvis] at hh
          simp only [List.head?_cons, Option.some.injEq] at hh
          subst hh
          unfold getFirstScreenCapture
          rw [hvis]
          rw [List.find?_cons_of_pos _ (by simp [StreamId.screen])]
          simp
      rw [if_neg hfind]
      rw [setStreamToSecondPosition, setStreamToPosition_eq]
      have hne : ¬st.visibles.head? = some (StreamId.camera p) := by
        rw [hh]
        simp [screen_ne_camera]
      rw [if_neg hne]
      show (insertAt 1 (StreamId.camera p)
          (st.visibles.filter (fun v => v ≠ StreamId.camera p))).head?
        = some (StreamId.screen p)
      cases hvis : st.visibles with
      | nil =>
        rw [hvis] at hh
        simp at hh
      | cons a rest =>
        rw [hvis] at hh
        simp only [List.head?_cons, Option.some.injEq] at hh
        subst hh
        rw [show (StreamId.screen p :: rest).filter
            (fun v => v ≠ StreamId.camera p)
            = StreamId.screen p ::
                rest.filter (fun v => v ≠ StreamId.camera p) from by
          simp [List.filter_cons, screen_ne_camera]]
        rfl
    · rw [if_neg hv]
      exact hh

/-- C3 (amended): `set_speaker(P)` (1) puts `(P, ScreenCapture)` at the
first position whenever it is registered with video status — its
visibility is not consulted; (2) with no registered-with-video screen for
`P` and no screen share visible anywhere, puts `(P, Camera)` — also gated
on registered video status — at the first position; (3) with a screen
share visible, the camera lands at index 1, unless it already occupied
the first position (the early return of `set_stream_to_position`, the
counterexample); (4) in particular, with the speaker's screen and camera
both registered with video and a duplicate-free visibility list, the list
becomes exactly the screen, the camera, then the remaining visibles in
order. -/
theorem c3_speaker_promotion :
    (∀ (st : TalkState) (p : Nat) (ss : StreamStatus),
        lookupStream st (StreamId.screen p) = some ss →
        ss.hasVideo = true →
        (talkSetSpeaker st p).1.visibles.head?
          = some (StreamId.screen p)) ∧
      (∀ (st : TalkState) (p : Nat) (cs : StreamStatus),
        (∀ ss, lookupStream st (StreamId.screen p) = some ss →
          ss.hasVideo = false) →
        lookupStream st (StreamId.camera p) = some cs →
        cs.hasVideo = true →
        getFirstScreenCapture st = none →
        (talkSetSpeaker st p).1.visibles.head?
          = some (StreamId.camera p)) ∧
      (∀ (st : TalkState) (p : Nat) (cs : StreamStatus),
        (∀ ss, lookupStream st (StreamId.screen p) = some ss →
          ss.hasVideo = false) →
        lookupStream st (StreamId.camera p) = some cs →
        cs.hasVideo = true →
        (getFirstScreenCapture st).isSome = true →
        ¬st.visibles.head? = some (StreamId.camera p) →
        (talkSetSpeaker st p).1.visibles.get? 1
          = some (StreamId.camera p)) ∧
      (∀ (st : TalkState) (p : Nat) (ss cs : StreamStatus),
        st.visibles.Nodup →
        lookupStream st (StreamId.screen p) = some ss →
        ss.hasVideo = true →
        lookupStream st (StreamId.camera p) = some cs →
        cs.hasVideo = true →
        (talkSetSpeaker st p).1.visibles
          = StreamId.screen p :: StreamId.camera p ::
              ((st.visibles.filter (fun v => v ≠ StreamId.screen p)).filter
                (fun v => v ≠ StreamId.camera p))) := by
  refine ⟨?_, ?_, ?_, ?_⟩
  · intro st p ss hs hsv
    rw [talkSetSpeaker_eq]
    have hs' : lookupStream { st with currentSpeaker := some p }
        (StreamId.screen p) = some ss := hs
    rw [speakerScreenStage_eq_first _ p ss hs' hsv]
    exact speakerCamStage_head_screen _ p (setStreamToFirstPosition_head _ _)
  · intro st p cs hscr hc hcv hns
    rw [talkSetSpeaker_eq]
    have hscr' : ∀ ss, lookupStream { st with currentSpeaker := some p }
        (StreamId.screen p) = some ss → ss.hasVideo = false := hscr
    rw [speakerScreenStage_no_video _ p hscr']
    show (speakerCamStage { st with currentSpeaker := some p }
        p).1.visibles.head? = some (StreamId.camera p)
    have hc' : lookupStream { st with currentSpeaker := some p }
        (StreamId.camera p) = some cs := hc
    have hns' : getFirstScreenCapture { st with currentSpeaker := some p }
        = none := hns
    rw [speakerCamStage_eq_first _ p cs hc' hcv hns']
    exact setStreamToFirstPosition_head _ _
  · intro st p cs hscr hc hcv hsome hne
    rw [talkSetSpeaker_eq]
    have hscr' : ∀ ss, lookupStream { st with currentSpeaker := some p }
        (StreamId.screen p) = some ss → ss.hasVideo = false := hscr
    rw [speakerScreenStage_no_video _ p hscr']
    show (speakerCamStage { st with currentSpeaker := some p }
        p).1.visibles.get? 1 = some (StreamId.camera p)
    have hc' : lookupStream { st with currentSpeaker := some p }
        (StreamId.camera p) = some cs := hc
    have hsome' : (getFirstScreenCapture
        { st with currentSpeaker := some p }).isSome = true := hsome
    rw [speakerCamStage_eq_second _ p cs hc' hcv hsome']
    rw [setStreamToSecondPosition, setStreamToPosition_eq]
    have hne' : ¬({ st with currentSpeaker := some p }
        : TalkState).visibles.head? = some (StreamId.camera p) := hne
    rw [if_neg hne']
    show (insertAt 1 (StreamId.camera p)
        (st.visibles.filter (fun v => v ≠ StreamId.camera p))).get? 1
      = some (StreamId.camera p)
    cases hg : getFirstScreenCapture st with
    | none =>
      rw [hg] at hsome
      simp at hsome
    | some s =>
      have hsmem : s ∈ st.visibles := List.mem_of_find?_eq_some hg
      have hstyp := List.find?_some hg
      simp only [decide_eq_true_eq] at hstyp
      have hsne : s ≠ StreamId.camera p := by
        intro he
        rw [he] at hstyp
        simp [StreamId.camera] at hstyp
      have hmemf : s ∈ st.visibles.filter
          (fun v => v ≠ StreamId.camera p) :=
        List.mem_filter.mpr ⟨hsmem, by simp [hsne]⟩
      cases hfil : st.visibles.filter (fun v => v ≠ StreamId.camera p) with
      | nil =>
        rw [hfil] at hmemf
        cases hmemf
      | cons b l => rfl
  · intro st p ss cs hnd hs hsv hc hcv
    rw [talkSetSpeaker_eq]
    have hs' : lookupStream { st with currentSpeaker := some p }
        (StreamId.screen p) = some ss := hs
    rw [speakerScreenStage_eq_first _ p ss hs' hsv]
    have hnd' : ({ st with currentSpeaker := some p }
        : TalkState).visibles.Nodup := hnd
    rw [setStreamToFirstPosition_eq _ _ hnd']
    show (speakerCamStage
        { st with
          currentSpeaker := some p
          visibles := StreamId.screen p ::
            st.visibles.filter (fun v => v ≠ StreamId.screen p) }
        p).1.visibles
      = StreamId.screen p :: StreamId.camera p ::
          ((st.visibles.filter (fun v => v ≠ StreamId.screen p)).filter
            (fun v => v ≠ StreamId.camera p))
    have hc2 : lookupStream
        { st with
          currentSpeaker := some p
          visibles := StreamId.screen p ::
            st.visibles.filter (fun v => v ≠ StreamId.screen p) }
        (StreamId.camera p) = some cs := hc
    have hsome2 : (getFirstScreenCapture
        { st with
          currentSpeaker := some p
          visibles := StreamId.screen p ::
            st.visibles.filter (fun v => v ≠ StreamId.screen p) }).isSome
        = true := by
      show ((StreamId.screen p ::
          st.visibles.filter (fun v => v ≠ StreamId.screen p)).find?
          (fun v => v.mediaType = MediaSessionType.ScreenCapture)).isSome
        = true
      rw [List.find?_cons_of_pos _ (by simp [StreamId.screen])]
      rfl
    rw [speakerCamStage_eq_second _ p cs hc2 hcv hsome2]
    rw [setStreamToSecondPosition, setStreamToPosition_eq]
    rw [if_neg (show ¬({ st with
          currentSpeaker := some p
          visibles := StreamId.screen p ::
            st.visibles.filter (fun v => v ≠ StreamId.screen p) }
        : TalkState).visibles.head? = some (StreamId.camera p) from by
      simp [screen_ne_camera])]
    show insertAt 1 (StreamId.camera p)
        ((StreamId.screen p ::
          st.visibles.filter (fun v => v ≠ StreamId.screen p)).filter
          (fun v => v ≠ StreamId.camera p))
      = StreamId.screen p :: StreamId.camera p ::
          ((st.visibles.filter (fun v => v ≠ StreamId.screen p)).filter
            (fun v => v ≠ StreamId.camera p))
    rw [show (StreamId.screen p ::
        st.visibles.filter (fun v => v ≠ StreamId.screen p)).filter
        (fun v => v ≠ StreamId.camera p)
        = StreamId.screen p ::
            (st.visibles.filter (fun v => v ≠ StreamId.screen p)).filter
              (fun v => v ≠ StreamId.camera p) from by
      simp [List.filter_cons, screen_ne_camera]]
    rfl

/-- The concrete scenario of C3: P1 publishes a camera, P2 a camera and a
screen, all subscribed and visible. -/
def c3Talk : TalkState :=
  { streams :=
      [(StreamId.camera 1, ⟨true, true⟩), (StreamId.camera 2, ⟨true, true⟩),
       (StreamId.screen 2, ⟨true, true⟩)],
    visibles := [StreamId.camera 1, StreamId.camera 2, StreamId.screen 2],
    names := [], maxVisibles := 8, currentSpeaker := none }

/-- A camera-only speaker for the C3 witness: P1's camera is registered
with video, no screen is registered and nothing is visible. -/
def c3CamOnly : TalkState :=
  { streams := [(StreamId.camera 1, ⟨true, true⟩)],
    visibles := [], names := [], maxVisibles := 8,
    currentSpeaker := none }

/-- Witness for C3: `set_speaker(P2)` on `c3Talk` yields the order
`[(P2, Screen), (P2, Camera), (P1, Camera)]` of the claim, and on the
camera-only speaker `c3CamOnly` (no screen share anywhere)
`set_speaker(P1)` puts the camera at the first position. -/
theorem c3_speaker_promotion_witness :
    (talkSetSpeaker c3Talk 2).1.visibles
        = [StreamId.screen 2, StreamId.camera 2, StreamId.camera 1] ∧
      (talkSetSpeaker c3CamOnly 1).1.visibles.head?
        = some (StreamId.camera 1) := by
  constructor
  · rw [c3_speaker_promotion.2.2.2 c3Talk 2 ⟨true, true⟩ ⟨true, true⟩
      (by decide) (by decide) (by decide) (by decide) (by decide)]
    rfl
  · exact c3_speaker_promotion.2.1 c3CamOnly 1 ⟨true, true⟩
      (fun ss h => Option.noConfusion h) (by decide) (by decide)
      (by decide)

/-- The state refuting C3 as stated: P1's camera is present, visible and
at position 0 while P2's screen share is visible. -/
def c3Cex : TalkState :=
  { streams :=
      [(StreamId.camera 1, ⟨true, true⟩), (StreamId.screen 2, ⟨true, true⟩)],
    visibles := [StreamId.camera 1, StreamId.screen 2],
    names := [], maxVisibles := 8, currentSpeaker := none }

/-- C3 (counterexample): in `c3Cex` a screen share is visible, and
`(1, Camera)` is present and visible, so the claim demands that
`set_speaker(1)` move it to index 1; the code's early return in
`set_stream_to_position` leaves it at index 0 and the visibility list
unchanged. -/
theorem c3_speaker_promotion_counterexample :
    (getFirstScreenCapture c3Cex).isSome = true ∧
      lookupStream c3Cex (StreamId.camera 1) = some ⟨true, true⟩ ∧
      isVisible c3Cex (StreamId.camera 1) = true ∧
      (talkSetSpeaker c3Cex 1).1.visibles
        = [StreamId.camera 1, StreamId.screen 2] := by
  refine ⟨by decide, by decide, by decide, ?_⟩
  rfl

/-- A member strictly shrinks a list when filtered out. -/
theorem length_filter_ne_lt_of_mem {α : Type} [DecidableEq α] {a : α}
    {l : List α} (h : a ∈ l) :
    (l.filter (fun v => v ≠ a)).length < l.length := by
  induction l with
  | nil => cases h
  | cons x xs ih =>
    by_cases hx : x = a
    · subst hx
      simp only [List.filter_cons]
      rw [if_neg (by simp)]
      exact Nat.lt_succ_of_le (List.length_filter_le _ xs)
    · rcases List.mem_cons.mp h with h' | h'
      · exact absurd h'.symm hx
      · simp only [List.filter_cons]
        rw [if_pos (by simp [hx])]
        simpa using ih h'

/-- In a duplicate-free list, filtering out a member removes exactly one
element. -/
theorem length_filter_ne_of_nodup {α : Type} [DecidableEq α] {a : α}
    {l : List α} (hnd : l.Nodup) (h : a ∈ l) :
    (l.filter (fun v => v ≠ a)).length + 1 = l.length := by
  induction l with
  | nil => cases h
  | cons x xs ih =>
    rcases List.nodup_cons.mp hnd with ⟨hx, hxs⟩
    by_cases hxa : x = a
    · subst hxa
      simp only [List.filter_cons]
      rw [if_neg (by simp)]
      rw [filter_ne_of_not_mem hx]
      simp
    · rcases List.mem_cons.mp h with h' | h'
      · exact absurd h'.symm hxa
      · simp only [List.filter_cons]
        rw [if_pos (by simp [hxa])]
        have := ih hxs h'
        simp only [List.length_cons]
        omega

/-- A stream is visible iff it occurs in the visibility list. -/
theorem isVisible_iff (st : TalkState) (id : StreamId) :
    isVisible st id = true ↔ id ∈ st.visibles := by
  simp [isVisible]

/-- A stream is invisible iff it does not occur in the visibility list. -/
theorem isVisible_false_iff (st : TalkState) (id : StreamId) :
    isVisible st id = false ↔ id ∉ st.visibles := by
  simp [isVisible]

/-- `Mixer::show_stream` only extends the visibility list and always
succeeds. -/
theorem mixerShowStream_eq (st : TalkState) (id : StreamId) (b : Bool) :
    mixerShowStream st id b
      = ({ st with visibles :=
            if isVisible st id then st.visibles
            else if b then id :: st.visibles else st.visibles ++ [id] },
          true) := by
  unfold mixerShowStream
  by_cases h1 : isVisible st id
  · simp [h1]
  · by_cases h2 : b <;> simp [h1, h2]

/-- `Mixer::hide_stream` only filters the visibility list and always
succeeds. -/
theorem mixerHideStream_eq (st : TalkState) (id : StreamId) :
    mixerHideStream st id
      = ({ st with visibles :=
            if isVisible st id then st.visibles.filter (fun v => v ≠ id)
            else st.visibles }, true) := by
  unfold mixerHideStream
  by_cases h1 : isVisible st id <;> simp [h1]

/-- At the cap, a ScreenCapture stream makes the cap stage hide the last
visible entry. -/
theorem talkShowStreamCap_at_cap_screen (st : TalkState) (id last : StreamId)
    (hcap : st.visibles.length ≥ st.maxVisibles)
    (hscr : id.mediaType = MediaSessionType.ScreenCapture)
    (hlast : st.visibles.getLast? = some last) :
    talkShowStreamCap st id = mixerHideStream st last := by
  unfold talkShowStreamCap
  rw [if_pos hcap, if_neg (by rw [hscr]; intro h; cases h), hlast]

/-- The cap stage of `Talk::show_stream` either rejects a Camera stream
outright or leaves a visibility list strictly below the cap. -/
theorem talkShowStreamCap_cases (st : TalkState) (id : StreamId)
    (hmax : 1 ≤ st.maxVisibles) (hlen : st.visibles.length ≤ st.maxVisibles) :
    (talkShowStreamCap st id = (st, false) ∧
        id.mediaType = MediaSessionType.Camera) ∨
      ((talkShowStreamCap st id).1.visibles.length < st.maxVisibles ∧
        (talkShowStreamCap st id).1.maxVisibles = st.maxVisibles) := by
  by_cases hcap : st.visibles.length ≥ st.maxVisibles
  · by_cases hcam : id.mediaType = MediaSessionType.Camera
    · left
      refine ⟨?_, hcam⟩
      unfold talkShowStreamCap
      rw [if_pos hcap, if_pos hcam]
    · right
      cases hg : st.visibles.getLast? with
      | none =>
        have hnil : st.visibles = [] := by simpa using hg
        have hstage : talkShowStreamCap st id = (st, true) := by
          unfold talkShowStreamCap
          rw [if_pos hcap, if_neg hcam, hg]
        rw [hstage]
        refine ⟨?_, rfl⟩
        show st.visibles.length < st.maxVisibles
        rw [hnil]
        simpa using hmax
      | some last =>
        have hscr : id.mediaType = MediaSessionType.ScreenCapture := by
          cases hmt : id.mediaType
          · exact absurd hmt hcam
          · rfl
        have hmem : last ∈ st.visibles := by
          obtain ⟨hne, he⟩ :=
            List.mem_getLast?_eq_getLast (l := st.visibles) (x := last) hg
          exact he ▸ List.getLast_mem hne
        have hvl : isVisible st last = true := (isVisible_iff st last).mpr hmem
        have hstage : talkShowStreamCap st id
            = ({ st with
                  visibles := st.visibles.filter (fun v => v ≠ last) },
                true) := by
          rw [talkShowStreamCap_at_cap_screen st id last hcap hscr hg,
            mixerHideStream_eq, if_pos hvl]
        rw [hstage]
        refine ⟨?_, rfl⟩
        show (st.visibles.filter (fun v => v ≠ last)).length < st.maxVisibles
        have := length_filter_ne_lt_of_mem hmem
        omega
  · have hstage : talkShowStreamCap st id = (st, true) := by
      unfold talkShowStreamCap
      rw [if_neg hcap]
    rw [hstage]
    refine Or.inr ⟨?_, rfl⟩
    show st.visibles.length < st.maxVisibles
    omega

/-- `Talk::show_stream` keeps the visibility list within the cap whenever
the cap is at least one. -/
theorem talkShowStream_bound (st : TalkState) (id : StreamId)
    (hmax : 1 ≤ st.maxVisibles) (hlen : st.visibles.length ≤ st.maxVisibles) :
    (talkShowStream st id).1.visibles.length ≤ st.maxVisibles ∧
      (talkShowStream st id).1.maxVisibles = st.maxVisibles := by
  have hcases := talkShowStreamCap_cases st id hmax hlen
  simp only [talkShowStream]
  by_cases hif : id.mediaType = MediaSessionType.Camera ∧
      (talkShowStreamCap st id).2 = false
  · rw [if_pos hif]
    rcases hcases with ⟨heq, _⟩ | ⟨hlt, hmx⟩
    · rw [heq]
      exact ⟨hlen, rfl⟩
    · exact ⟨le_of_lt hlt, hmx⟩
  · rw [if_neg hif]
    rcases hcases with ⟨heq, hcam⟩ | ⟨hlt, hmx⟩
    · exact absurd ⟨hcam, by rw [heq]⟩ hif
    · rw [mixerShowStream_eq]
      refine ⟨?_, hmx⟩
      by_cases h1 : isVisible (talkShowStreamCap st id).1 id
      · simp only [h1, if_true]
        exact le_of_lt hlt
      · simp only [h1, Bool.false_eq_true, if_false]
        by_cases h2 : id.mediaType = MediaSessionType.ScreenCapture ∧
            (getFirstScreenCapture (talkShowStreamCap st id).1).isNone
        · rw [if_pos (decide_eq_true h2)]
          simp only [List.length_cons]
          omega
        · rw [if_neg (fun hd => h2 (of_decide_eq_true hd))]
          simp only [List.length_append, List.length_cons, List.length_nil]
          omega

/-- `Talk::hide_stream` never grows the visibility list. -/
theorem talkHideStream_bound (st : TalkState) (id : StreamId) :
    (talkHideStream st id).1.visibles.length ≤ st.visibles.length ∧
      (talkHideStream st id).1.maxVisibles = st.maxVisibles := by
  unfold talkHideStream
  rw [mixerHideStream_eq]
  refine ⟨?_, rfl⟩
  by_cases h : isVisible st id
  · simp only [h, if_true]
    exact List.length_filter_le _ _
  · simp only [h, Bool.false_eq_true, if_false]
    exact le_rfl

/-- `Talk::add_stream` never touches the visibility list. -/
theorem talkAddStream_visibles (st : TalkState) (id : StreamId)
    (displayName : String) (s : StreamStatus) :
    (talkAddStream st id displayName s).1.visibles = st.visibles ∧
      (talkAddStream st id displayName s).1.maxVisibles = st.maxVisibles := by
  unfold talkAddStream mixerAddStream mixerSetStatus
  by_cases h : containsStream st id
  · simp [h]
  · simp only [h, Bool.false_eq_true, if_false, if_true]
    split <;> exact ⟨rfl, rfl⟩

/-- The screen-promotion step after `Talk::remove_stream` never grows the
visibility list. -/
theorem promoteFirstScreen_bound (st : TalkState) :
    (promoteFirstScreen st).1.visibles.length ≤ st.visibles.length ∧
      (promoteFirstScreen st).1.maxVisibles = st.maxVisibles := by
  unfold promoteFirstScreen
  cases hg : getFirstScreenCapture st with
  | none => exact ⟨le_rfl, rfl⟩
  | some sid =>
    have hmem : sid ∈ st.visibles := by
      simp only [getFirstScreenCapture] at hg
      exact List.mem_of_find?_eq_some hg
    show (setStreamToFirstPosition st sid).1.visibles.length
        ≤ st.visibles.length ∧
      (setStreamToFirstPosition st sid).1.maxVisibles = st.maxVisibles
    rw [setStreamToFirstPosition, setStreamToPosition_eq]
    refine ⟨?_, rfl⟩
    by_cases hh : st.visibles.head? = some sid
    · simp only [hh, if_true]
      exact le_rfl
    · simp only [hh, if_false, insertAt, List.length_cons]
      have := length_filter_ne_lt_of_mem hmem
      omega

/-- `Talk::remove_stream` never grows the visibility list. -/
theorem talkRemoveStream_bound (st : TalkState) (id : StreamId) :
    (talkRemoveStream st id).1.visibles.length ≤ st.visibles.length ∧
      (talkRemoveStream st id).1.maxVisibles = st.maxVisibles := by
  simp only [talkRemoveStream, mixerRemoveStream]
  by_cases h : containsStream st id
  · have h' : containsStream
        { st with names := st.names.filter (fun p => p.1 ≠ id) } id = true := h
    rw [if_pos h']
    refine ⟨le_trans (promoteFirstScreen_bound _).1 ?_,
      (promoteFirstScreen_bound _).2⟩
    exact List.length_filter_le _ _
  · have h' : ¬containsStream
        { st with names := st.names.filter (fun p => p.1 ≠ id) } id = true := h
    rw [if_neg h']
    exact ⟨le_rfl, rfl⟩

/-- A lookup hit implies registry membership. -/
theorem contains_of_lookup {st : TalkState} {id : StreamId}
    {s : StreamStatus} (h : lookupStream st id = some s) :
    containsStream st id = true := by
  unfold lookupStream at h
  unfold containsStream
  cases hf : st.streams.find? (fun p => p.1 = id) with
  | none => rw [hf] at h; cases h
  | some p => rfl

/-- The show/hide transition on a video-bit change keeps the visibility
list within the cap whenever the cap is at least one. -/
theorem videoTransition_bound (st : TalkState) (id : StreamId)
    (ov nv : Bool) (hmax : 1 ≤ st.maxVisibles)
    (hlen : st.visibles.length ≤ st.maxVisibles) :
    (videoTransition st id ov nv).1.visibles.length ≤ st.maxVisibles ∧
      (videoTransition st id ov nv).1.maxVisibles = st.maxVisibles := by
  cases ov <;> cases nv
  · exact ⟨hlen, rfl⟩
  · exact talkShowStream_bound st id hmax hlen
  · exact ⟨le_trans (talkHideStream_bound st id).1 hlen,
      (talkHideStream_bound st id).2⟩
  · exact ⟨hlen, rfl⟩

/-- `Talk::set_status` keeps the visibility list within the cap whenever
the cap is at least one. -/
theorem talkSetStatus_bound (st : TalkState) (id : StreamId)
    (s : StreamStatus) (hmax : 1 ≤ st.maxVisibles)
    (hlen : st.visibles.length ≤ st.maxVisibles) :
    (talkSetStatus st id s).1.visibles.length ≤ st.maxVisibles ∧
      (talkSetStatus st id s).1.maxVisibles = st.maxVisibles := by
  cases hl : lookupStream st id with
  | none =>
    have heq : talkSetStatus st id s = (st, true) := by
      unfold talkSetStatus
      rw [hl]
    rw [heq]
    exact ⟨hlen, rfl⟩
  | some old =>
    have hc := contains_of_lookup hl
    have hms : mixerSetStatus st id s
        = ({ st with streams := updateStatus st.streams id s }, true) := by
      unfold mixerSetStatus
      rw [if_pos hc]
    have heq : talkSetStatus st id s
        = videoTransition { st with streams := updateStatus st.streams id s }
            id old.hasVideo s.hasVideo := by
      unfold talkSetStatus
      rw [hl, hms]
      rfl
    rw [heq]
    exact videoTransition_bound _ id _ _ hmax hlen

/-- Applying any non-`set_speaker` operation preserves the cap bound. -/
theorem applyOps_cap_inv (m : Nat) (hm : 1 ≤ m) :
    ∀ (ops : List TalkOp) (st : TalkState), st.maxVisibles = m →
      st.visibles.length ≤ m →
      (∀ op ∈ ops, ∀ p, op ≠ TalkOp.setSpeaker p) →
      (applyOps st ops).visibles.length ≤ m := by
  intro ops
  induction ops with
  | nil => intro st _ h2 _; simpa [applyOps] using h2
  | cons op ops ih =>
    intro st h1 h2 hno
    have hmax : 1 ≤ st.maxVisibles := h1 ▸ hm
    have hlen : st.visibles.length ≤ st.maxVisibles := h1 ▸ h2
    have hstep : (applyOp st op).maxVisibles = m ∧
        (applyOp st op).visibles.length ≤ m := by
      cases op with
      | addStream id n s =>
        have h := talkAddStream_visibles st id n s
        exact ⟨h.2.trans h1, h.1 ▸ h2⟩
      | removeStream id =>
        have h := talkRemoveStream_bound st id
        exact ⟨h.2.trans h1, le_trans h.1 h2⟩
      | showStream id =>
        have h := talkShowStream_bound st id hmax hlen
        exact ⟨h.2.trans h1, h1 ▸ h.1⟩
      | hideStream id =>
        have h := talkHideStream_bound st id
        exact ⟨h.2.trans h1, le_trans h.1 h2⟩
      | setStatus id s =>
        have h := talkSetStatus_bound st id s hmax hlen
        exact ⟨h.2.trans h1, h1 ▸ h.1⟩
      | setSpeaker p =>
        exact absurd rfl (hno _ (List.mem_cons_self _ _) p)
    exact ih (applyOp st op) hstep.1 hstep.2
      (fun o ho q => hno o (List.mem_cons_of_mem _ ho) q)

/-- C2 (amended): (1) for every operation sequence without `set_speaker`
and a cap of at least one, the visibility list never exceeds
`max_visibles` (`set_speaker` can exceed the cap because it inserts a
registered-but-hidden video stream, and a cap of zero is exceeded by the
first screen share); (2) `show_stream` at the cap ignores a Camera stream,
leaving state and list unchanged; (3) `show_stream` at the cap for a
not-yet-visible ScreenCapture stream evicts the last visible entry and
inserts the new stream, keeping the list at the cap. -/
theorem c2_visibles_cap :
    (∀ (m : Nat) (ops : List TalkOp), 1 ≤ m →
      (∀ op ∈ ops, ∀ p, op ≠ TalkOp.setSpeaker p) →
      (applyOps (initialTalk m) ops).visibles.length ≤ m) ∧
    (∀ (st : TalkState) (id : StreamId),
      st.visibles.length ≥ st.maxVisibles →
      id.mediaType = MediaSessionType.Camera →
      talkShowStream st id = (st, true)) ∧
    (∀ (st : TalkState) (id last : StreamId), st.visibles.Nodup →
      st.visibles.length = st.maxVisibles →
      id.mediaType = MediaSessionType.ScreenCapture →
      isVisible st id = false → st.visibles.getLast? = some last →
      last ∉ (talkShowStream st id).1.visibles ∧
        id ∈ (talkShowStream st id).1.visibles ∧
        (talkShowStream st id).1.visibles.length = st.maxVisibles) := by
  refine ⟨?_, ?_, ?_⟩
  · intro m ops hm hno
    exact applyOps_cap_inv m hm ops (initialTalk m) rfl
      (by simp [initialTalk]) hno
  · intro st id hcap hcam
    have hstage : talkShowStreamCap st id = (st, false) := by
      unfold talkShowStreamCap
      rw [if_pos hcap, if_pos hcam]
    simp [talkShowStream, hstage, hcam]
  · intro st id last hnd hcap hscr hnv hlast
    have hmem_last : last ∈ st.visibles := by
      obtain ⟨hne, he⟩ :=
        List.mem_getLast?_eq_getLast (l := st.visibles) (x := last) hlast
      exact he ▸ List.getLast_mem hne
    have hne_id : id ≠ last := by
      intro e
      rw [e] at hnv
      rw [(isVisible_iff st last).mpr hmem_last] at hnv
      cases hnv
    have hcap' : st.visibles.length ≥ st.maxVisibles := le_of_eq hcap.symm
    have hvl : isVisible st last = true := (isVisible_iff st last).mpr hmem_last
    have hstage : talkShowStreamCap st id
        = ({ st with visibles := st.visibles.filter (fun v => v ≠ last) },
            true) := by
      rw [talkShowStreamCap_at_cap_screen st id last hcap' hscr hlast,
        mixerHideStream_eq, if_pos hvl]
    have hcamneg : ¬(id.mediaType = MediaSessionType.Camera ∧
        (talkShowStreamCap st id).2 = false) := by
      rw [hscr]
      intro h
      cases h.1
    simp only [talkShowStream, hstage]
    rw [if_neg (by rw [hscr]; intro h; cases h.1), mixerShowStream_eq]
    have hidF : isVisible
        ({ st with visibles := st.visibles.filter (fun v => v ≠ last) })
          id = false := by
      rw [isVisible_false_iff]
      intro hmem
      exact (isVisible_false_iff st id).mp hnv (List.mem_of_mem_filter hmem)
    simp only [hidF, Bool.false_eq_true, if_false]
    have hflen := length_filter_ne_of_nodup hnd hmem_last
    by_cases hpf : id.mediaType = MediaSessionType.ScreenCapture ∧
        (getFirstScreenCapture
          { st with visibles :=
              st.visibles.filter (fun v => v ≠ last) }).isNone
    · rw [if_pos (decide_eq_true hpf)]
      refine ⟨?_, List.mem_cons_self _ _, ?_⟩
      · simp only [List.mem_cons, not_or]
        refine ⟨fun e => hne_id e.symm, ?_⟩
        simp
      · simp only [List.length_cons]
        omega
    · rw [if_neg (fun hd => hpf (of_decide_eq_true hd))]
      refine ⟨?_, by simp, ?_⟩
      · simp only [List.mem_append, List.mem_singleton, not_or]
        refine ⟨?_, fun e => hne_id e.symm⟩
        simp
      · simp only [List.length_append, List.length_cons, List.length_nil]
        omega

/-- Operation sequence refuting the unrestricted C2 invariant: with
`max_visibles = 1`, two subscribed cameras, one visible, `set_speaker(2)`
promotes the hidden camera of participant 2 into the visibility list. -/
def c2CexOps : List TalkOp :=
  [TalkOp.addStream (StreamId.camera 1) "A" ⟨false, false⟩,
   TalkOp.addStream (StreamId.camera 2) "B" ⟨false, false⟩,
   TalkOp.setStatus (StreamId.camera 1) ⟨false, true⟩,
   TalkOp.setStatus (StreamId.camera 2) ⟨false, true⟩,
   TalkOp.setSpeaker 2]

/-- C2 (counterexample): running `c2CexOps` from an empty talk with
`max_visibles = 1` leaves two entries in the visibility list. -/
theorem c2_visibles_cap_counterexample :
    (initialTalk 1).maxVisibles = 1 ∧
      (applyOps (initialTalk 1) c2CexOps).visibles.length = 2 := by
  exact ⟨rfl, rfl⟩

/-- A talk at the cap: one visible camera, `max_visibles = 1`. -/
def c2CapTalk : TalkState :=
  { streams :=
      [(StreamId.camera 1, ⟨true, true⟩), (StreamId.screen 2, ⟨true, true⟩)],
    visibles := [StreamId.camera 1],
    names := [], maxVisibles := 1, currentSpeaker := none }

/-- Witness for C2 at concrete inputs: an add-and-show sequence stays
within the cap, a Camera show at the cap is a no-op, and a ScreenCapture
show at the cap evicts the last visible entry. -/
theorem c2_visibles_cap_witness :
    (applyOps (initialTalk 1)
        [TalkOp.addStream (StreamId.camera 1) "A" ⟨false, true⟩,
         TalkOp.showStream (StreamId.camera 1),
         TalkOp.showStream (StreamId.camera 2)]).visibles.length ≤ 1 ∧
      talkShowStream c2CapTalk (StreamId.camera 3) = (c2CapTalk, true) ∧
      (StreamId.camera 1 ∉
          (talkShowStream c2CapTalk (StreamId.screen 2)).1.visibles ∧
        StreamId.screen 2 ∈
          (talkShowStream c2CapTalk (StreamId.screen 2)).1.visibles ∧
        (talkShowStream c2CapTalk (StreamId.screen 2)).1.visibles.length
          = c2CapTalk.maxVisibles) :=
  ⟨c2_visibles_cap.1 1 _ (by decide)
      (by
        intro op hop p
        fin_cases hop <;> simp),
    c2_visibles_cap.2.1 c2CapTalk (StreamId.camera 3) (by decide) (by decide),
    c2_visibles_cap.2.2 c2CapTalk (StreamId.screen 2) (StreamId.camera 1)
      (by decide) (by decide) (by decide) (by decide) (by decide)⟩


/-- Overwriting the status stored for one id never changes which ids an
association-list search can find. -/
theorem find?_isSome_updateStatus (streams : List (StreamId × StreamStatus))
    (sid : StreamId) (s : StreamStatus) (other : StreamId) :
    ((updateStatus streams sid s).find? (fun p => p.1 = other)).isSome
      = (streams.find? (fun p => p.1 = other)).isSome := by
  induction streams with
  | nil => rfl
  | cons q qs ih =>
    have hcons : updateStatus (q :: qs) sid s
        = (if q.1 = sid then (q.1, s) else q) :: updateStatus qs sid s := rfl
    have hkey : (if q.1 = sid then (q.1, s) else q).1 = q.1 := by
      by_cases hq : q.1 = sid <;> simp [hq]
    rw [hcons]
    by_cases ho : q.1 = other
    · rw [List.find?_cons_of_pos _ (by rw [hkey, ho]; simp),
        List.find?_cons_of_pos _ (by rw [ho]; simp)]
      rfl
    · rw [List.find?_cons_of_neg _ (by simp [hkey, ho]),
        List.find?_cons_of_neg _ (by simp [ho])]
      exact ih

/-- Filtering one id out of the registry never changes whether a different
id can be found. -/
theorem find?_isSome_filter_ne (streams : List (StreamId × StreamStatus))
    (sid other : StreamId) (h : other ≠ sid) :
    ((streams.filter (fun p => p.1 ≠ sid)).find?
        (fun p => p.1 = other)).isSome
      = (streams.find? (fun p => p.1 = other)).isSome := by
  induction streams with
  | nil => rfl
  | cons q qs ih =>
    by_cases hq : q.1 = sid
    · rw [show (q :: qs).filter (fun p => p.1 ≠ sid)
          = qs.filter (fun p => p.1 ≠ sid) from by
        simp [List.filter_cons, hq]]
      rw [List.find?_cons_of_neg _ (by simp [hq, Ne.symm h])]
      exact ih
    · rw [show (q :: qs).filter (fun p => p.1 ≠ sid)
          = q :: qs.filter (fun p => p.1 ≠ sid) from by
        simp [List.filter_cons, hq]]
      by_cases ho : q.1 = other
      · rw [List.find?_cons_of_pos _ (by simp [ho]),
          List.find?_cons_of_pos _ (by simp [ho])]
      · rw [List.find?_cons_of_neg _ (by simp [ho]),
          List.find?_cons_of_neg _ (by simp [ho])]
        exact ih

/-- `Mixer::set_status` never changes which ids are registered. -/
theorem mixerSetStatus_contains (st : TalkState) (sid : StreamId)
    (s : StreamStatus) (other : StreamId) :
    containsStream (mixerSetStatus st sid s).1 other
      = containsStream st other := by
  unfold mixerSetStatus
  by_cases h : containsStream st sid = true
  · rw [if_pos h]
    exact find?_isSome_updateStatus st.streams sid s other
  · rw [if_neg h]

/-- `Talk::add_stream` does not affect the registration of other ids. -/
theorem talkAddStream_contains_ne (st : TalkState) (sid : StreamId)
    (n : String) (s : StreamStatus) (other : StreamId) (h : other ≠ sid) :
    containsStream (talkAddStream st sid n s).1 other
      = containsStream st other := by
  unfold talkAddStream mixerAddStream
  by_cases hc : containsStream st sid = true
  · rw [if_pos hc]
    rfl
  · rw [if_neg hc]
    show containsStream
        (mixerSetStatus
          { st with
            streams := (sid, s) :: st.streams
            names := (sid, n) :: st.names } sid s).1 other
      = containsStream st other
    rw [mixerSetStatus_contains]
    show (((sid, s) :: st.streams).find? (fun p => p.1 = other)).isSome
      = (st.streams.find? (fun p => p.1 = other)).isSome
    rw [List.find?_cons_of_neg _ (by simp [Ne.symm h])]

/-- `Talk::add_stream` of a fresh id succeeds. -/
theorem talkAddStream_ok (st : TalkState) (id : StreamId) (n : String)
    (s : StreamStatus) (h : containsStream st id = false) :
    (talkAddStream st id n s).2 = true := by
  unfold talkAddStream mixerAddStream
  rw [if_neg (show ¬containsStream st id = true from by simp [h])]
  show (mixerSetStatus
      { st with
        streams := (id, s) :: st.streams
        names := (id, n) :: st.names } id s).2 = true
  unfold mixerSetStatus
  rw [if_pos (show containsStream
      { st with
        streams := (id, s) :: st.streams
        names := (id, n) :: st.names } id = true from by
    show (((id, s) :: st.streams).find? (fun p => p.1 = id)).isSome = true
    rw [List.find?_cons_of_pos _ (by simp)]
    rfl)]

/-- The cap stage of `Talk::show_stream` leaves the registry unchanged. -/
theorem talkShowStreamCap_streams (st : TalkState) (id : StreamId) :
    (talkShowStreamCap st id).1.streams = st.streams := by
  unfold talkShowStreamCap
  by_cases hcap : st.visibles.length ≥ st.maxVisibles
  · rw [if_pos hcap]
    by_cases hcam : id.mediaType = MediaSessionType.Camera
    · rw [if_pos hcam]
    · rw [if_neg hcam]
      cases hg : st.visibles.getLast? with
      | none => rfl
      | some last =>
        show (mixerHideStream st last).1.streams = st.streams
        rw [mixerHideStream_eq]
  · rw [if_neg hcap]

/-- `Talk::show_stream` leaves the registry unchanged. -/
theorem talkShowStream_streams (st : TalkState) (id : StreamId) :
    (talkShowStream st id).1.streams = st.streams := by
  unfold talkShowStream
  by_cases hif : id.mediaType = MediaSessionType.Camera ∧
      (talkShowStreamCap st id).2 = false
  · rw [if_pos hif]
    exact talkShowStreamCap_streams st id
  · rw [if_neg hif, mixerShowStream_eq]
    exact talkShowStreamCap_streams st id

/-- `Talk::show_stream` never changes which ids are registered. -/
theorem talkShowStream_contains (st : TalkState) (sid other : StreamId) :
    containsStream (talkShowStream st sid).1 other
      = containsStream st other := by
  unfold containsStream
  rw [talkShowStream_streams]

/-- `Talk::show_stream` always succeeds. -/
theorem talkShowStream_ok (st : TalkState) (id : StreamId) :
    (talkShowStream st id).2 = true := by
  unfold talkShowStream
  by_cases hif : id.mediaType = MediaSessionType.Camera ∧
      (talkShowStreamCap st id).2 = false
  · rw [if_pos hif]
  · rw [if_neg hif, mixerShowStream_eq]

/-- `Talk::hide_stream` always succeeds. -/
theorem talkHideStream_ok (st : TalkState) (id : StreamId) :
    (talkHideStream st id).2 = true := by
  unfold talkHideStream
  rw [mixerHideStream_eq]

/-- The screen-promotion step after `Talk::remove_stream` always
succeeds. -/
theorem promoteFirstScreen_ok (st : TalkState) :
    (promoteFirstScreen st).2 = true := by
  unfold promoteFirstScreen
  cases hg : getFirstScreenCapture st with
  | none => rfl
  | some sid =>
    show (setStreamToFirstPosition st sid).2 = true
    rw [setStreamToFirstPosition, setStreamToPosition_eq]

/-- The screen-promotion step after `Talk::remove_stream` leaves the
registry unchanged. -/
theorem promoteFirstScreen_streams (st : TalkState) :
    (promoteFirstScreen st).1.streams = st.streams := by
  unfold promoteFirstScreen
  cases hg : getFirstScreenCapture st with
  | none => rfl
  | some sid =>
    show (setStreamToFirstPosition st sid).1.streams = st.streams
    rw [setStreamToFirstPosition, setStreamToPosition_eq]

/-- `Talk::remove_stream` of a registered id succeeds. -/
theorem talkRemoveStream_ok (st : TalkState) (id : StreamId)
    (h : containsStream st id = true) :
    (talkRemoveStream st id).2 = true := by
  simp only [talkRemoveStream, mixerRemoveStream]
  have h' : containsStream
      { st with names := st.names.filter (fun p => p.1 ≠ id) } id = true := h
  rw [if_pos h']
  exact promoteFirstScreen_ok _

/-- `Talk::remove_stream` does not affect the registration of other
ids. -/
theorem talkRemoveStream_contains_ne (st : TalkState) (sid other : StreamId)
    (h : other ≠ sid) :
    containsStream (talkRemoveStream st sid).1 other
      = containsStream st other := by
  simp only [talkRemoveStream, mixerRemoveStream]
  by_cases hc : containsStream st sid = true
  · have h' : containsStream
        { st with names := st.names.filter (fun p => p.1 ≠ sid) } sid
        = true := hc
    rw [if_pos h']
    show containsStream (promoteFirstScreen
        { st with
          streams := st.streams.filter (fun p => p.1 ≠ sid),
          visibles := st.visibles.filter (fun v => v ≠ sid),
          names := st.names.filter (fun p => p.1 ≠ sid) }).1 other
      = containsStream st other
    unfold containsStream
    rw [promoteFirstScreen_streams]
    exact find?_isSome_filter_ne st.streams sid other h
  · have h' : ¬containsStream
        { st with names := st.names.filter (fun p => p.1 ≠ sid) } sid
        = true := hc
    rw [if_neg h']
    rfl

/-- `Talk::hide_stream` never changes which ids are registered. -/
theorem talkHideStream_contains (st : TalkState) (sid other : StreamId) :
    containsStream (talkHideStream st sid).1 other
      = containsStream st other := by
  unfold talkHideStream
  rw [mixerHideStream_eq]
  rfl

/-- The show/hide transition on a video-bit change always succeeds. -/
theorem videoTransition_ok (st : TalkState) (sid : StreamId) (ov nv : Bool) :
    (videoTransition st sid ov nv).2 = true := by
  cases ov <;> cases nv
  · rfl
  · exact talkShowStream_ok st sid
  · exact talkHideStream_ok st sid
  · rfl

/-- The show/hide transition on a video-bit change never changes which
ids are registered. -/
theorem videoTransition_contains (st : TalkState) (sid other : StreamId)
    (ov nv : Bool) :
    containsStream (videoTransition st sid ov nv).1 other
      = containsStream st other := by
  cases ov <;> cases nv
  · rfl
  · exact talkShowStream_contains st sid other
  · exact talkHideStream_contains st sid other
  · rfl

/-- `Talk::set_status` always succeeds. -/
theorem talkSetStatus_ok (st : TalkState) (sid : StreamId)
    (s : StreamStatus) :
    (talkSetStatus st sid s).2 = true := by
  cases hl : lookupStream st sid with
  | none =>
    have heq : talkSetStatus st sid s = (st, true) := by
      unfold talkSetStatus
      rw [hl]
    rw [heq]
  | some old =>
    have hc := contains_of_lookup hl
    have hms : mixerSetStatus st sid s
        = ({ st with streams := updateStatus st.streams sid s }, true) := by
      unfold mixerSetStatus
      rw [if_pos hc]
    have heq : talkSetStatus st sid s
        = videoTransition
            { st with streams := updateStatus st.streams sid s }
            sid old.hasVideo s.hasVideo := by
      unfold talkSetStatus
      rw [hl, hms]
      rfl
    rw [heq]
    exact videoTransition_ok _ sid _ _

/-- `Talk::set_status` never changes which ids are registered. -/
theorem talkSetStatus_contains (st : TalkState) (sid other : StreamId)
    (s : StreamStatus) :
    containsStream (talkSetStatus st sid s).1 other
      = containsStream st other := by
  cases hl : lookupStream st sid with
  | none =>
    have heq : talkSetStatus st sid s = (st, true) := by
      unfold talkSetStatus
      rw [hl]
    rw [heq]
  | some old =>
    have hc := contains_of_lookup hl
    have hms : mixerSetStatus st sid s
        = ({ st with streams := updateStatus st.streams sid s }, true) := by
      unfold mixerSetStatus
      rw [if_pos hc]
    have heq : talkSetStatus st sid s
        = videoTransition
            { st with streams := updateStatus st.streams sid s }
            sid old.hasVideo s.hasVideo := by
      unfold talkSetStatus
      rw [hl, hms]
      rfl
    rw [heq, videoTransition_contains]
    unfold containsStream
    exact find?_isSome_updateStatus st.streams sid s other


/-- A `publishes` hit implies the recording consent is set. -/
theorem consents_of_publishes {p : ParticipantState}
    {typ : MediaSessionType} {ms : MediaSessionState}
    (h : p.publishes typ = some ms) : p.consents = true := by
  by_cases hc : p.consents = true
  · exact hc
  · unfold ParticipantState.publishes at h
    rw [if_pos hc] at h
    cases h

/-- `subscribe` only appends to the issue log: anything subscribed
afterwards was subscribed before or is the new stream. -/
theorem subscribeStream_mem (run : HandlerRun) (sid : StreamId) (n : String)
    (ms : MediaSessionState) (x : StreamId)
    (hx : x ∈ (subscribeStream run sid n ms).subscribed) :
    x ∈ run.subscribed ∨ x = sid := by
  unfold subscribeStream at hx
  by_cases h1 : (talkAddStream run.talk sid n ms.toStatus).2 = true
  · rw [if_pos h1] at hx
    have hx' : x ∈ run.subscribed ++ [sid] := by
      by_cases h2 : ms.video = true
      · rw [if_pos h2] at hx
        exact hx
      · rw [if_neg h2] at hx
        exact hx
    rcases List.mem_append.mp hx' with h | h
    · exact Or.inl h
    · exact Or.inr (List.mem_singleton.mp h)
  · rw [if_neg h1] at hx
    exact Or.inl hx

/-- `subscribe` keeps every previously issued subscription in the log. -/
theorem subscribeStream_subscribed_mono (run : HandlerRun) (sid : StreamId)
    (n : String) (ms : MediaSessionState) (x : StreamId)
    (hx : x ∈ run.subscribed) :
    x ∈ (subscribeStream run sid n ms).subscribed := by
  unfold subscribeStream
  by_cases h1 : (talkAddStream run.talk sid n ms.toStatus).2 = true
  · rw [if_pos h1]
    by_cases h2 : ms.video = true
    · rw [if_pos h2]
      exact List.mem_append_left _ hx
    · rw [if_neg h2]
      exact List.mem_append_left _ hx
  · rw [if_neg h1]
    exact hx

/-- A `subscribe` of a fresh stream appends exactly that stream to the
issue log, succeeds, and affects no other id's registration. -/
theorem subscribeStream_props (run : HandlerRun) (sid : StreamId)
    (n : String) (ms : MediaSessionState) (hok : run.ok = true)
    (hnc : containsStream run.talk sid = false) :
    (subscribeStream run sid n ms).subscribed
        = run.subscribed ++ [sid] ∧
      (subscribeStream run sid n ms).ok = true ∧
      ∀ other : StreamId, other ≠ sid →
        containsStream (subscribeStream run sid n ms).talk other
          = containsStream run.talk other := by
  unfold subscribeStream
  rw [if_pos (talkAddStream_ok run.talk sid n ms.toStatus hnc)]
  by_cases h2 : ms.video = true
  · rw [if_pos h2]
    refine ⟨rfl, talkShowStream_ok _ _, ?_⟩
    intro other ho
    show containsStream
        (talkShowStream (talkAddStream run.talk sid n ms.toStatus).1
          sid).1 other
      = containsStream run.talk other
    rw [talkShowStream_contains]
    exact talkAddStream_contains_ne run.talk sid n ms.toStatus other ho
  · rw [if_neg h2]
    refine ⟨rfl, hok, ?_⟩
    intro other ho
    exact talkAddStream_contains_ne run.talk sid n ms.toStatus other ho

/-- The error-stopping fold preserves any membership bound satisfied by
each step: every stream subscribed by the fold was subscribed before the
fold or is accounted for by `P`. -/
theorem foldStop_subscribed_mem {α : Type}
    (step : HandlerRun → α → HandlerRun) (P : StreamId → Prop) :
    ∀ (l : List α) (run : HandlerRun),
      (∀ (r : HandlerRun) (a : α), a ∈ l →
        ∀ x ∈ (step r a).subscribed, x ∈ r.subscribed ∨ P x) →
      ∀ x ∈ (foldStop step run l).subscribed,
        x ∈ run.subscribed ∨ P x := by
  intro l
  induction l with
  | nil =>
    intro run _ x hx
    exact Or.inl hx
  | cons a l ih =>
    intro run hstep x hx
    have hx' : x ∈ (if (step run a).ok = true
        then foldStop step (step run a) l else step run a).subscribed := hx
    by_cases hok : (step run a).ok = true
    · rw [if_pos hok] at hx'
      rcases ih (step run a)
          (fun r b hb => hstep r b (List.mem_cons_of_mem a hb)) x hx'
          with h | h
      · exact hstep run a (List.mem_cons_self a l) x h
      · exact Or.inr h
    · rw [if_neg hok] at hx'
      exact hstep run a (List.mem_cons_self a l) x hx'

/-- Unfolding the error-stopping fold over the two media types when the
first step succeeds. -/
theorem foldStop_two {α : Type} (step : HandlerRun → α → HandlerRun)
    (run : HandlerRun) (a b : α) (h1 : (step run a).ok = true) :
    foldStop step run [a, b] = step (step run a) b := by
  show (if (step run a).ok = true
      then foldStop step (step run a) [b] else step run a)
    = step (step run a) b
  rw [if_pos h1]
  show (if (step (step run a) b).ok = true
      then step (step run a) b else step (step run a) b)
    = step (step run a) b
  exact ite_self _

/-- Each subscription issued by the join loop belongs to the walked
participant, who consents. -/
theorem joinStep_mem (id : Nat) (p : ParticipantState) (run : HandlerRun)
    (typ : MediaSessionType) (x : StreamId)
    (hx : x ∈ (joinStep id p run typ).subscribed) :
    x ∈ run.subscribed ∨ (x.id = id ∧ p.consents = true) := by
  unfold joinStep at hx
  cases hp : p.publishes typ with
  | none =>
    rw [hp] at hx
    exact Or.inl hx
  | some ms =>
    rw [hp] at hx
    have hx' : x ∈ (subscribeStream run (StreamId.mk id typ)
        p.displayName ms).subscribed := hx
    rcases subscribeStream_mem run (StreamId.mk id typ) p.displayName ms
        x hx' with h | h
    · exact Or.inl h
    · exact Or.inr ⟨by rw [h], consents_of_publishes hp⟩

/-- Each subscription issued by the update loop belongs to the updated
participant, who consents. -/
theorem updStep_mem (p : ParticipantState) (id : Nat) (run : HandlerRun)
    (typ : MediaSessionType) (x : StreamId)
    (hx : x ∈ (updStep p id run typ).subscribed) :
    x ∈ run.subscribed ∨ (x.id = id ∧ p.consents = true) := by
  unfold updStep at hx
  by_cases hc : containsStream run.talk (StreamId.mk id typ) = true
  · rw [if_neg (not_not_intro hc)] at hx
    cases hp : p.publishes typ with
    | none =>
      rw [hp] at hx
      exact Or.inl hx
    | some ms =>
      rw [hp] at hx
      exact Or.inl hx
  · rw [if_pos hc] at hx
    cases hp : p.publishes typ with
    | none =>
      rw [hp] at hx
      exact Or.inl hx
    | some ms =>
      rw [hp] at hx
      have hx' : x ∈ (subscribeStream run (StreamId.mk id typ)
          p.displayName ms).subscribed := hx
      rcases subscribeStream_mem run (StreamId.mk id typ) p.displayName ms
          x hx' with h | h
      · exact Or.inl h
      · exact Or.inr ⟨by rw [h], consents_of_publishes hp⟩

/-- The leave loop never issues subscriptions. -/
theorem leftStep_mem (id : Nat) (run : HandlerRun) (typ : MediaSessionType)
    (x : StreamId) (hx : x ∈ (leftStep id run typ).subscribed) :
    x ∈ run.subscribed := by
  unfold leftStep at hx
  by_cases hc : containsStream run.talk (StreamId.mk id typ) = true
  · rw [if_pos hc] at hx
    exact hx
  · rw [if_neg hc] at hx
    exact hx

/-- The update loop never fails on a media type. -/
theorem updStep_ok (p : ParticipantState) (id : Nat) (run : HandlerRun)
    (typ : MediaSessionType) (hok : run.ok = true) :
    (updStep p id run typ).ok = true := by
  unfold updStep
  by_cases hc : containsStream run.talk (StreamId.mk id typ) = true
  · rw [if_neg (not_not_intro hc)]
    cases hp : p.publishes typ with
    | none =>
      exact talkRemoveStream_ok run.talk (StreamId.mk id typ) hc
    | some ms =>
      exact talkSetStatus_ok run.talk (StreamId.mk id typ) ms.toStatus
  · rw [if_pos hc]
    cases hp : p.publishes typ with
    | none =>
      exact hok
    | some ms =>
      have hnc : containsStream run.talk (StreamId.mk id typ) = false := by
        cases hb : containsStream run.talk (StreamId.mk id typ)
        · rfl
        · exact absurd hb hc
      exact (subscribeStream_props run (StreamId.mk id typ) p.displayName
        ms hok hnc).2.1

/-- One media type of the update loop does not affect the registration of
other stream ids. -/
theorem updStep_contains_ne (p : ParticipantState) (id : Nat)
    (run : HandlerRun) (typ : MediaSessionType) (other : StreamId)
    (hne : other ≠ StreamId.mk id typ) (hok : run.ok = true) :
    containsStream (updStep p id run typ).talk other
      = containsStream run.talk other := by
  unfold updStep
  by_cases hc : containsStream run.talk (StreamId.mk id typ) = true
  · rw [if_neg (not_not_intro hc)]
    cases hp : p.publishes typ with
    | none =>
      exact talkRemoveStream_contains_ne run.talk (StreamId.mk id typ)
        other hne
    | some ms =>
      exact talkSetStatus_contains run.talk (StreamId.mk id typ) other
        ms.toStatus
  · rw [if_pos hc]
    cases hp : p.publishes typ with
    | none => rfl
    | some ms =>
      have hnc : containsStream run.talk (StreamId.mk id typ) = false := by
        cases hb : containsStream run.talk (StreamId.mk id typ)
        · rfl
        · exact absurd hb hc
      exact (subscribeStream_props run (StreamId.mk id typ) p.displayName
        ms hok hnc).2.2 other hne

/-- The update loop on a published but not yet subscribed media type
appends exactly that stream to the issue log. -/
theorem updStep_subscribes (p : ParticipantState) (id : Nat)
    (run : HandlerRun) (typ : MediaSessionType) (ms : MediaSessionState)
    (hok : run.ok = true)
    (hnc : containsStream run.talk (StreamId.mk id typ) = false)
    (hp : p.publishes typ = some ms) :
    (updStep p id run typ).subscribed
      = run.subscribed ++ [StreamId.mk id typ] := by
  unfold updStep
  rw [if_pos (show ¬containsStream run.talk (StreamId.mk id typ) = true
      from by simp [hnc]), hp]
  exact (subscribeStream_props run (StreamId.mk id typ) p.displayName ms
    hok hnc).1

/-- The update loop keeps every previously issued subscription. -/
theorem updStep_subscribed_mono (p : ParticipantState) (id : Nat)
    (run : HandlerRun) (typ : MediaSessionType) (x : StreamId)
    (hx : x ∈ run.subscribed) :
    x ∈ (updStep p id run typ).subscribed := by
  unfold updStep
  by_cases hc : containsStream run.talk (StreamId.mk id typ) = true
  · rw [if_neg (not_not_intro hc)]
    cases hp : p.publishes typ with
    | none => exact hx
    | some ms => exact hx
  · rw [if_pos hc]
    cases hp : p.publishes typ with
    | none => exact hx
    | some ms =>
      exact subscribeStream_subscribed_mono run (StreamId.mk id typ)
        p.displayName ms x hx

/-- With duplicate-free participant ids, any roster entry carrying the
looked-up id carries the looked-up state. -/
theorem rosterLookup_unique :
    ∀ (roster : Roster), (roster.map Prod.fst).Nodup →
      ∀ (p : Nat) (ps : ParticipantState),
        rosterLookup roster p = some ps →
        ∀ e ∈ roster, e.1 = p → e.2 = ps := by
  intro roster
  induction roster with
  | nil =>
    intro _ p ps _ e he _
    cases he
  | cons a l ih =>
    intro hnd p ps hlk e he hep
    rw [List.map_cons, List.nodup_cons] at hnd
    rcases List.mem_cons.mp he with rfl | he'
    · unfold rosterLookup at hlk
      rw [List.find?_cons_of_pos _ (by simp [hep])] at hlk
      simpa using hlk
    · by_cases hap : a.1 = p
      · exfalso
        have hm : e.1 ∈ l.map Prod.fst := List.mem_map_of_mem Prod.fst he'
        rw [hep, ← hap] at hm
        exact hnd.1 hm
      · have hlk' : rosterLookup l p = some ps := by
          unfold rosterLookup at hlk ⊢
          rw [List.find?_cons_of_neg _ (by simp [hap])] at hlk
          exact hlk
        exact ih hnd.2 p ps hlk' e he' hep

/-- C1: consent gates every subscription. (1) For any roster event, a
participant whose roster entry has `consents = false` never has a stream
subscribed by the handler — `ParticipantState::publishes` returns `None`
without consent, so no `add_stream`/`start_subscribe` is issued for them.
(2) When a `ParticipantUpdated` event arrives for a participant whose
entry now has `consents = true` and who publishes a media type not yet
subscribed, handling that event subscribes the corresponding stream. -/
theorem c1_consent_gate :
    (∀ (roster : Roster) (talk : TalkState) (ev : RosterEvent)
        (p : Nat) (ps : ParticipantState),
        (roster.map Prod.fst).Nodup →
        rosterLookup roster p = some ps → ps.consents = false →
        ∀ x ∈ (handleSignalingEvent roster talk ev).subscribed,
          x.id ≠ p) ∧
      (∀ (roster : Roster) (talk : TalkState) (p : Nat)
          (ps : ParticipantState) (typ : MediaSessionType)
          (ms : MediaSessionState),
        rosterLookup roster p = some ps → ps.consents = true →
        ps.publishing typ = some ms →
        containsStream talk (StreamId.mk p typ) = false →
        StreamId.mk p typ ∈
          (handleSignalingEvent roster talk
            (RosterEvent.participantUpdated p)).subscribed) := by
  constructor
  · intro roster talk ev p ps hnd hlk hcons x hx
    cases ev with
    | joinSuccess =>
      have hstep : ∀ (r : HandlerRun) (entry : Nat × ParticipantState),
          entry ∈ roster →
          ∀ y ∈ (subscribeAllPublished entry.1 entry.2 r).subscribed,
            y ∈ r.subscribed ∨ y.id ≠ p := by
        intro r entry hent y hy
        have hy' : y ∈ (foldStop (joinStep entry.1 entry.2) r
            mediaTypes).subscribed := hy
        rcases foldStop_subscribed_mem (joinStep entry.1 entry.2)
            (fun z => z.id = entry.1 ∧ entry.2.consents = true) mediaTypes
            r (fun r' t _ z hz => joinStep_mem entry.1 entry.2 r' t z hz)
            y hy' with h | h
        · exact Or.inl h
        · refine Or.inr ?_
          intro hyp
          have hep : entry.1 = p := by rw [← h.1, hyp]
          have hps : entry.2 = ps :=
            rosterLookup_unique roster hnd p ps hlk entry hent hep
          have hc2 : ps.consents = true := hps ▸ h.2
          rw [hcons] at hc2
          simp at hc2
      have hx' : x ∈ (foldStop
          (fun run (entry : Nat × ParticipantState) =>
            subscribeAllPublished entry.1 entry.2 run)
          { talk := talk, subscribed := [], ok := true }
          roster).subscribed := hx
      rcases foldStop_subscribed_mem
          (fun run (entry : Nat × ParticipantState) =>
            subscribeAllPublished entry.1 entry.2 run)
          (fun z => z.id ≠ p) roster
          { talk := talk, subscribed := [], ok := true }
          (fun r entry hent y hy => hstep r entry hent y hy) x hx'
          with h | h
      · exact absurd h (List.not_mem_nil x)
      · exact h
    | participantJoined pid =>
      cases hq : rosterLookup roster pid with
      | none =>
        have heq : handleSignalingEvent roster talk
            (RosterEvent.participantJoined pid)
            = { talk := talk, subscribed := [], ok := false } := by
          simp only [handleSignalingEvent, hq]
        rw [heq] at hx
        exact absurd hx (List.not_mem_nil x)
      | some q =>
        have heq : handleSignalingEvent roster talk
            (RosterEvent.participantJoined pid)
            = subscribeAllPublished pid q
                { talk := talk, subscribed := [], ok := true } := by
          simp only [handleSignalingEvent, hq]
        rw [heq] at hx
        have hx' : x ∈ (foldStop (joinStep pid q)
            { talk := talk, subscribed := [], ok := true }
            mediaTypes).subscribed := hx
        rcases foldStop_subscribed_mem (joinStep pid q)
            (fun z => z.id = pid ∧ q.consents = true) mediaTypes
            { talk := talk, subscribed := [], ok := true }
            (fun r' t _ z hz => joinStep_mem pid q r' t z hz) x hx'
            with h | h
        · exact absurd h (List.not_mem_nil x)
        · intro hyp
          have hpq : ps = q := by
            rw [← h.1, hyp] at hq
            rw [hlk] at hq
            exact Option.some.inj hq
          have hc2 : ps.consents = true := by
            rw [hpq]
            exact h.2
          rw [hcons] at hc2
          simp at hc2
    | participantUpdated pid =>
      cases hq : rosterLookup roster pid with
      | none =>
        have heq : handleSignalingEvent roster talk
            (RosterEvent.participantUpdated pid)
            = { talk := talk, subscribed := [], ok := false } := by
          simp only [handleSignalingEvent, hq]
        rw [heq] at hx
        exact absurd hx (List.not_mem_nil x)
      | some q =>
        have heq : handleSignalingEvent roster talk
            (RosterEvent.participantUpdated pid)
            = handleParticipantUpdated q pid
                { talk := talk, subscribed := [], ok := true } := by
          simp only [handleSignalingEvent, hq]
        rw [heq] at hx
        have hx' : x ∈ (foldStop (updStep q pid)
            { talk := talk, subscribed := [], ok := true }
            mediaTypes).subscribed := hx
        rcases foldStop_subscribed_mem (updStep q pid)
            (fun z => z.id = pid ∧ q.consents = true) mediaTypes
            { talk := talk, subscribed := [], ok := true }
            (fun r' t _ z hz => updStep_mem q pid r' t z hz) x hx'
            with h | h
        · exact absurd h (List.not_mem_nil x)
        · intro hyp
          have hpq : ps = q := by
            rw [← h.1, hyp] at hq
            rw [hlk] at hq
            exact Option.some.inj hq
          have hc2 : ps.consents = true := by
            rw [hpq]
            exact h.2
          rw [hcons] at hc2
          simp at hc2
    | participantLeft pid =>
      have hx' : x ∈ (foldStop (leftStep pid)
          { talk := talk, subscribed := [], ok := true }
          mediaTypes).subscribed := hx
      rcases foldStop_subscribed_mem (leftStep pid) (fun _ => False)
          mediaTypes { talk := talk, subscribed := [], ok := true }
          (fun r' t _ z hz => Or.inl (leftStep_mem pid r' t z hz)) x hx'
          with h | h
      · exact absurd h (List.not_mem_nil x)
      · exact h.elim
  · intro roster talk p ps typ ms hlk hcons hpub hnsub
    have hp : ps.publishes typ = some ms := by
      unfold ParticipantState.publishes
      rw [if_neg (not_not_intro hcons)]
      exact hpub
    have heq : handleSignalingEvent roster talk
        (RosterEvent.participantUpdated p)
        = handleParticipantUpdated ps p
            { talk := talk, subscribed := [], ok := true } := by
      simp only [handleSignalingEvent, hlk]
    rw [heq]
    unfold handleParticipantUpdated
    have hok1 : (updStep ps p
        { talk := talk, subscribed := [], ok := true }
        MediaSessionType.ScreenCapture).ok = true :=
      updStep_ok ps p _ MediaSessionType.ScreenCapture rfl
    rw [show mediaTypes
        = [MediaSessionType.ScreenCapture, MediaSessionType.Camera]
        from rfl]
    rw [foldStop_two (updStep ps p)
        { talk := talk, subscribed := [], ok := true }
        MediaSessionType.ScreenCapture MediaSessionType.Camera hok1]
    cases typ with
    | ScreenCapture =>
      have hsub1 : (updStep ps p
            { talk := talk, subscribed := [], ok := true }
            MediaSessionType.ScreenCapture).subscribed
          = ({ talk := talk, subscribed := [], ok := true }
              : HandlerRun).subscribed
            ++ [StreamId.mk p MediaSessionType.ScreenCapture] :=
        updStep_subscribes ps p _ MediaSessionType.ScreenCapture ms rfl
          hnsub hp
      refine updStep_subscribed_mono ps p _ MediaSessionType.Camera _ ?_
      rw [hsub1]
      exact List.mem_append_right _ (List.mem_singleton.mpr rfl)
    | Camera =>
      have hpres : containsStream
          (updStep ps p { talk := talk, subscribed := [], ok := true }
            MediaSessionType.ScreenCapture).talk
          (StreamId.mk p MediaSessionType.Camera)
          = containsStream talk (StreamId.mk p MediaSessionType.Camera) :=
        updStep_contains_ne ps p _ MediaSessionType.ScreenCapture
          (StreamId.mk p MediaSessionType.Camera) (by simp) rfl
      have hnsub2 : containsStream
          (updStep ps p { talk := talk, subscribed := [], ok := true }
            MediaSessionType.ScreenCapture).talk
          (StreamId.mk p MediaSessionType.Camera) = false := by
        rw [hpres]
        exact hnsub
      have hsub2 : (updStep ps p
            (updStep ps p { talk := talk, subscribed := [], ok := true }
              MediaSessionType.ScreenCapture)
            MediaSessionType.Camera).subscribed
          = (updStep ps p { talk := talk, subscribed := [], ok := true }
              MediaSessionType.ScreenCapture).subscribed
            ++ [StreamId.mk p MediaSessionType.Camera] :=
        updStep_subscribes ps p _ MediaSessionType.Camera ms hok1 hnsub2 hp
      rw [hsub2]
      exact List.mem_append_right _ (List.mem_singleton.mpr rfl)

/-- Concrete roster for the C1 witness: participant 1 publishes camera
video without consent, participant 2 publishes camera video with
consent. -/
def c1Roster : Roster :=
  [(1, { displayName := "alice"
         consents := false
         camera := some { video := true, audio := true }
         screen := none }),
   (2, { displayName := "bob"
         consents := true
         camera := some { video := true, audio := true }
         screen := none })]

/-- Witness for C1 on `c1Roster` over an empty talk: the only stream that
`JoinSuccess` subscribes is participant 2's camera (so part 1 applies to
it and yields `2 ≠ 1`), and the `ParticipantUpdated` event for the
consenting participant 2 subscribes that camera stream (part 2). -/
theorem c1_consent_gate_witness :
    (StreamId.mk 2 MediaSessionType.Camera).id ≠ 1 ∧
      StreamId.mk 2 MediaSessionType.Camera ∈
        (handleSignalingEvent c1Roster (initialTalk 8)
          (RosterEvent.participantUpdated 2)).subscribed :=
  ⟨c1_consent_gate.1 c1Roster (initialTalk 8) RosterEvent.joinSuccess 1
      { displayName := "alice"
        consents := false
        camera := some { video := true, audio := true }
        screen := none }
      (by decide) rfl rfl (StreamId.mk 2 MediaSessionType.Camera)
      (by decide),
    c1_consent_gate.2 c1Roster (initialTalk 8) 2
      { displayName := "bob"
        consents := true
        camera := some { video := true, audio := true }
        screen := none }
      MediaSessionType.Camera { video := true, audio := true }
      rfl rfl rfl rfl⟩

end Theorems
